import Mathlib

/-!
Verification of the free-monoidal-category diagram library (`moncat.py`).

The data model is embedded shallowly: a `Ty` is the list of its object
names, a `Box` is an atomic generator with a name, domain, codomain and a
dagger flag, and a `Diagram` carries a domain, a codomain, a list of boxes
and a parallel list of offsets.  Python's clamped list slicing
`scan[off : off + n]` is rendered as `(scan.drop off).take n`, and
fallible operations return `Except`.
-/

/-- A type is the list of the names of its objects (`Ty` in `moncat.py`).
Concatenation of types is list append. -/
abbrev Ty := List String

/-- An atomic box: name, domain, codomain and dagger flag.  Equality is
structural, matching `Box.__eq__` which compares the printed signature
(name, dom, cod, dagger flag). -/
structure Box where
  name : String
  dom : Ty
  cod : Ty
  dag : Bool
deriving DecidableEq

/-- Modelled from the spec: `cat.Box.dagger` is not under `src/`; §4.4 says
atomic boxes swap `dom`/`cod` and flip the internal dagger flag, and
double-dagger is the identity. -/
def Box.dagger (b : Box) : Box := ⟨b.name, b.cod, b.dom, !b.dag⟩

/-- A diagram: `dom`, `cod`, boxes and their offsets (`Diagram` in
`moncat.py`).  Equality is syntactic, matching `Diagram.__eq__`. -/
structure Diagram where
  dom : Ty
  cod : Ty
  boxes : List Box
  offsets : List Nat
deriving DecidableEq

/-- The errors raised during construction and composition.  `interchanger`
is a constructor of `AxiomError`, reflecting that `InterchangerError` is a
subclass of `AxiomError` in the source. -/
inductive AxiomError where
  | domainMismatch (expected got : Ty)
  | codomainMismatch (expected got : Ty)
  | composeMismatch (cod dom : Ty)
  | interchanger (b0 b1 : Box)
deriving DecidableEq

/-- Top-level error type: axiom errors (including interchanger errors),
index errors from `interchange`, and the boxes/offsets length check of the
constructor. -/
inductive DiagramError where
  | ax (e : AxiomError)
  | indexError (n : Nat) (i j : Int)
  | lengthError
deriving DecidableEq

instance {ε α : Type} [DecidableEq ε] [DecidableEq α] : DecidableEq (Except ε α)
  | .error e, .error f => decidable_of_iff (e = f) (by simp)
  | .error _, .ok _ => isFalse (by simp)
  | .ok _, .error _ => isFalse (by simp)
  | .ok a, .ok b => decidable_of_iff (a = b) (by simp)

/-- One step of the scan simulation from `Diagram.__init__`: if the slice
`scan[off : off + len(box.dom)]` equals `box.dom`, replace it with
`box.cod`; otherwise the step fails. -/
def scanStep (s : Ty) (b : Box) (o : Nat) : Option Ty :=
  if (s.drop o).take b.dom.length = b.dom then
    some (s.take o ++ b.cod ++ s.drop (o + b.dom.length))
  else none

/-- The scan simulation over a whole list of (box, offset) pairs. -/
def scanList : Ty → List (Box × Nat) → Option Ty
  | s, [] => some s
  | s, (b, o) :: rest =>
    match scanStep s b o with
    | some t => scanList t rest
    | none => none

/-- The validating loop of `Diagram.__init__`, reporting the first
mismatch as `Domain {scan slice} expected, got {box.dom} instead`. -/
def checkBoxes : Ty → List (Box × Nat) → Except DiagramError Ty
  | s, [] => .ok s
  | s, (b, o) :: rest =>
    if (s.drop o).take b.dom.length = b.dom then
      checkBoxes (s.take o ++ b.cod ++ s.drop (o + b.dom.length)) rest
    else
      .error (.ax (.domainMismatch ((s.drop o).take b.dom.length) b.dom))

/-- `Diagram.__init__` without the `_fast` path: length check, scan
simulation with domain errors, then the final codomain check. -/
def mkDiagram (dom cod : Ty) (boxes : List Box) (offsets : List Nat) :
    Except DiagramError Diagram :=
  if boxes.length = offsets.length then
    match checkBoxes dom (boxes.zip offsets) with
    | .error e => .error e
    | .ok scan =>
      if scan = cod then .ok ⟨dom, cod, boxes, offsets⟩
      else .error (.ax (.codomainMismatch cod scan))
  else .error .lengthError

/-- The well-formedness invariant: boxes and offsets have the same length
and the scan simulation starting at `dom` lands on `cod`. -/
def wellFormed (d : Diagram) : Prop :=
  d.boxes.length = d.offsets.length ∧
  scanList d.dom (d.boxes.zip d.offsets) = some d.cod

instance : DecidablePred wellFormed := fun d => by
  unfold wellFormed; infer_instance

/-- A strict scan step: like `scanStep` but additionally requiring the
offset window to lie inside the scan type (no clamped slicing). -/
def scanStepStrict (s : Ty) (b : Box) (o : Nat) : Option Ty :=
  if o + b.dom.length ≤ s.length ∧ (s.drop o).take b.dom.length = b.dom then
    some (s.take o ++ b.cod ++ s.drop (o + b.dom.length))
  else none

/-- The strict scan simulation over a list of (box, offset) pairs. -/
def scanListStrict : Ty → List (Box × Nat) → Option Ty
  | s, [] => some s
  | s, (b, o) :: rest =>
    match scanStepStrict s b o with
    | some t => scanListStrict t rest
    | none => none

/-- Strict well-formedness: the scan simulation lands on `cod` and every
offset window stays inside the scan type at its step. -/
def wellFormedStrict (d : Diagram) : Prop :=
  d.boxes.length = d.offsets.length ∧
  scanListStrict d.dom (d.boxes.zip d.offsets) = some d.cod

instance : DecidablePred wellFormedStrict := fun d => by
  unfold wellFormedStrict; infer_instance

/-- `Diagram.tensor`: concatenate domains, codomains and boxes; shift the
second diagram's offsets by `len(f.cod)`. -/
def Diagram.tensor (f g : Diagram) : Diagram :=
  ⟨f.dom ++ g.dom, f.cod ++ g.cod, f.boxes ++ g.boxes,
   f.offsets ++ g.offsets.map (fun n => n + f.cod.length)⟩

/-- Modelled from the spec: `cat.Diagram.then` is not under `src/`; §4.3
says sequential composition requires `f.cod == g.dom` (else an axiom
error) and concatenates the box and offset sequences over `f.dom → g.cod`.
`moncat.Diagram.then` supplies the offset concatenation. -/
def Diagram.thenD (f g : Diagram) : Except DiagramError Diagram :=
  if f.cod = g.dom then
    .ok ⟨f.dom, g.cod, f.boxes ++ g.boxes, f.offsets ++ g.offsets⟩
  else .error (.ax (.composeMismatch f.cod g.dom))

/-- `Diagram.dagger`: swap `dom`/`cod`, reverse the box list daggering
each box, and reverse the offsets. -/
def Diagram.dagger (d : Diagram) : Diagram :=
  ⟨d.cod, d.dom, d.boxes.reverse.map Box.dagger, d.offsets.reverse⟩

/-- `Diagram.id` / `Id(x)`: the identity diagram on a type. -/
def Diagram.id (x : Ty) : Diagram := ⟨x, x, [], []⟩

/-- A box seen as a one-box diagram, as in `Box.__init__`. -/
def Box.toDiagram (b : Box) : Diagram := ⟨b.dom, b.cod, [b], [0]⟩

/-- The default box used to render Python's in-bounds list indexing. -/
def Box.null : Box := ⟨"", [], [], false⟩

/-- The box at position `i`, i.e. `self.boxes[i]` (used in bounds). -/
def Diagram.boxAt (d : Diagram) (i : Nat) : Box := d.boxes.getD i Box.null

/-- The offset at position `i`, i.e. `self.offsets[i]` (used in bounds). -/
def Diagram.offAt (d : Diagram) (i : Nat) : Nat := d.offsets.getD i 0

/-- The adjacent-swap core of `Diagram.interchange` at positions `i` and
`i + 1` (reached with `i < j` after the index normalisation): try the
`left` branch, then `box0` right of `box1`, then `box0` left of `box1`,
else raise the interchanger error naming both boxes. -/
def interCore (d : Diagram) (i : Nat) (left : Bool) : Except DiagramError Diagram :=
  if left = true ∧ d.offAt i + (d.boxAt i).cod.length ≤ d.offAt (i + 1) then
    .ok ⟨d.dom, d.cod,
      d.boxes.take i ++ [d.boxAt (i + 1), d.boxAt i] ++ d.boxes.drop (i + 2),
      d.offsets.take i
        ++ [d.offAt (i + 1) - (d.boxAt i).cod.length + (d.boxAt i).dom.length, d.offAt i]
        ++ d.offsets.drop (i + 2)⟩
  else if d.offAt (i + 1) + (d.boxAt (i + 1)).dom.length ≤ d.offAt i then
    .ok ⟨d.dom, d.cod,
      d.boxes.take i ++ [d.boxAt (i + 1), d.boxAt i] ++ d.boxes.drop (i + 2),
      d.offsets.take i
        ++ [d.offAt (i + 1),
            d.offAt i - (d.boxAt (i + 1)).dom.length + (d.boxAt (i + 1)).cod.length]
        ++ d.offsets.drop (i + 2)⟩
  else if d.offAt i + (d.boxAt i).cod.length ≤ d.offAt (i + 1) then
    .ok ⟨d.dom, d.cod,
      d.boxes.take i ++ [d.boxAt (i + 1), d.boxAt i] ++ d.boxes.drop (i + 2),
      d.offsets.take i
        ++ [d.offAt (i + 1) - (d.boxAt i).cod.length + (d.boxAt i).dom.length, d.offAt i]
        ++ d.offsets.drop (i + 2)⟩
  else .error (.ax (.interchanger (d.boxAt i) (d.boxAt (i + 1))))

/-- One recursive call `result.interchange(i, j)` made by the walking
loops of `interchange`, where `|i - j| = 1`: the bounds check followed by
the adjacent-swap core (such a call never reaches the walking branches). -/
def interStep (d : Diagram) (i j : Int) (left : Bool) : Except DiagramError Diagram :=
  if 0 ≤ i ∧ i < (d.boxes.length : Int) ∧ 0 ≤ j ∧ j < (d.boxes.length : Int) then
    if i = j then .ok d else interCore d (min i j).toNat left
  else .error (.indexError d.boxes.length i j)

/-- The loop `for k in range(i - j): result = result.interchange(i - k, i - k - 1)`. -/
def walkDown (d : Diagram) (i : Int) : Nat → Except DiagramError Diagram
  | 0 => .ok d
  | n + 1 =>
    match interStep d i (i - 1) false with
    | .ok r => walkDown r (i - 1) n
    | .error e => .error e

/-- The loop `for k in range(j - i): result = result.interchange(i + k, i + k + 1)`. -/
def walkUp (d : Diagram) (i : Int) : Nat → Except DiagramError Diagram
  | 0 => .ok d
  | n + 1 =>
    match interStep d i (i + 1) false with
    | .ok r => walkUp r (i + 1) n
    | .error e => .error e

/-- `Diagram.interchange(i, j, left)`: bounds check, identity on `i = j`,
walks of adjacent swaps when `|i - j| > 1`, and the adjacent-swap core
otherwise. -/
def Diagram.interchange (d : Diagram) (i j : Int) (left : Bool) :
    Except DiagramError Diagram :=
  if 0 ≤ i ∧ i < (d.boxes.length : Int) ∧ 0 ≤ j ∧ j < (d.boxes.length : Int) then
    if i = j then .ok d
    else if j < i - 1 then walkDown d i (i - j).toNat
    else if i + 1 < j then walkUp d i (j - i).toNat
    else interCore d (min i j).toNat left
  else .error (.indexError d.boxes.length i j)

/-- The directional disjointness test of `Diagram.normalize` for the
adjacent pair at positions `i`, `i + 1`. -/
def dirTest (left : Bool) (d : Diagram) (i : Nat) : Bool :=
  (left && decide (d.offAt i + (d.boxAt i).cod.length ≤ d.offAt (i + 1)))
    || (!left && decide (d.offAt (i + 1) + (d.boxAt (i + 1)).dom.length ≤ d.offAt i))

/-- The inner scan of `Diagram.normalize`: walk the candidate indices in
order; at the first index passing the directional test attempt the
interchange, stopping at its result on success and continuing the scan on
an interchanger error. -/
def normScanFrom (left : Bool) (d : Diagram) : List Nat → Option Diagram
  | [] => none
  | i :: rest =>
    if dirTest left d i then
      match d.interchange (i : Int) ((i : Int) + 1) left with
      | .ok r => some r
      | .error _ => normScanFrom left d rest
    else normScanFrom left d rest

/-- One pass of `Diagram.normalize`'s while-loop body: the diagram after
scanning all adjacent pairs, which is the input diagram itself when no
move was made. -/
def normStep (left : Bool) (d : Diagram) : Diagram :=
  (normScanFrom left d (List.range (d.boxes.length - 1))).getD d

/-- The sequence of diagrams yielded by `Diagram.normalize`, truncated at
`fuel` steps: the generator ends as soon as a pass returns the diagram it
started from. -/
def normalizeList (left : Bool) : Nat → Diagram → List Diagram
  | 0, _ => []
  | fuel + 1, d =>
    let nxt := normStep left d
    if nxt = d then [] else nxt :: normalizeList left fuel nxt

/-- The outcomes of `Diagram.normal_form`: `notConnected` models the
`NotImplementedError("Diagram ... is not connected.")`, and `outOfFuel`
marks that the fuel bound was reached before the generator settled. -/
inductive NormalFormError where
  | notConnected
  | outOfFuel
deriving DecidableEq

/-- The consuming loop of `Diagram.normal_form`: track the last yielded
diagram and the visited cache; raise `notConnected` when a yielded diagram
recurs. -/
def normalFormAux (left : Bool) :
    Nat → Diagram → List Diagram → Except NormalFormError Diagram
  | 0, _, _ => .error .outOfFuel
  | fuel + 1, cur, cache =>
    let nxt := normStep left cur
    if nxt = cur then .ok cur
    else if nxt ∈ cache then .error .notConnected
    else normalFormAux left fuel nxt (nxt :: cache)

/-- `Diagram.normal_form(left)`, with an explicit fuel bound on the number
of rewrite steps. -/
def normal_form (left : Bool) (fuel : Nat) (d : Diagram) :
    Except NormalFormError Diagram :=
  normalFormAux left fuel d []

/-- `Ty.__pow__`: n-fold concatenation of a type with itself. -/
def tyPow (t : Ty) : Nat → Ty
  | 0 => []
  | n + 1 => tyPow t n ++ t

/-- The generating type `Ty('x')` of the spiral. -/
def xTy : Ty := ["x"]

/-- The box `Box('unit', Ty(), x)` of `_spiral`. -/
def unitBox : Box := ⟨"unit", [], xTy, false⟩

/-- The box `Box('counit', x, Ty())` of `_spiral`. -/
def counitBox : Box := ⟨"counit", xTy, [], false⟩

/-- The box `Box('cup', x @ x, Ty())` of `_spiral`. -/
def cupBox : Box := ⟨"cup", xTy ++ xTy, [], false⟩

/-- The box `Box('cap', Ty(), x @ x)` of `_spiral`. -/
def capBox : Box := ⟨"cap", [], xTy ++ xTy, false⟩

/-- `_spiral(n_cups)`: one unit box, `n_cups` nested caps, a counit in the
middle, and `n_cups` nested cups, composed exactly as in the source. -/
def spiral (nCups : Nat) : Except DiagramError Diagram := do
  let x := xTy
  let r1 ← (List.range nCups).foldlM
    (fun r i => r.thenD
      (((Diagram.id (tyPow x i)).tensor capBox.toDiagram).tensor
        (Diagram.id (tyPow x (i + 1)))))
    unitBox.toDiagram
  let r2 ← r1.thenD
    (((Diagram.id (tyPow x nCups)).tensor counitBox.toDiagram).tensor
      (Diagram.id (tyPow x nCups)))
  (List.range nCups).foldlM
    (fun r i => r.thenD
      (((Diagram.id (tyPow x (nCups - i - 1))).tensor cupBox.toDiagram).tensor
        (Diagram.id (tyPow x (nCups - i - 1)))))
    r2

/-- The normal form of the spiral of size `n`, when both the construction
and the fuelled normalisation succeed. -/
def spiralNF (n fuel : Nat) : Option Diagram :=
  match spiral n with
  | .ok s =>
    match normal_form false fuel s with
    | .ok nf => some nf
    | .error _ => none
  | .error _ => none

/-- Decides whether some box equal to `unitBox` is immediately followed by
a box equal to `counitBox` in the diagram's box sequence. -/
def unitImmediatelyBeforeCounit (d : Diagram) : Bool :=
  (d.boxes.zip d.boxes.tail).any (fun p => p.1 == unitBox && p.2 == counitBox)

/-- Maps a spiral box name to its box, for writing trajectory literals. -/
def spBoxOf : String → Box
  | "unit" => unitBox
  | "counit" => counitBox
  | "cup" => cupBox
  | _ => capBox

/-- Builds a diagram of the spiral trajectory (domain and codomain are the
empty type) from box names and offsets. -/
def mkSp (names : List String) (offs : List Nat) : Diagram :=
  ⟨[], [], names.map spBoxOf, offs⟩

/-- Decides that `l` is exactly the sequence of diagrams yielded by
`normalize` from `cur`: each element is the pass result of its
predecessor and differs from it, and the last element is a fixpoint of
the pass. -/
def isTrajB (left : Bool) : Diagram → List Diagram → Bool
  | cur, [] => normStep left cur == cur
  | cur, x :: xs => (normStep left cur == x) && (x != cur) && isTrajB left x xs

/-- The spiral of size 2, written out literally. -/
def spStart2 : Diagram :=
mkSp ["unit", "cap", "cap", "counit", "cup", "cup"] [0, 0, 1, 2, 1, 0]

/-- The sequence of diagrams yielded by normalising the spiral of size 2. -/
def spTraj2 : List Diagram := [
  mkSp ["cap", "unit", "cap", "counit", "cup", "cup"] [0, 2, 1, 2, 1, 0],
  mkSp ["cap", "cap", "unit", "counit", "cup", "cup"] [0, 1, 4, 2, 1, 0],
  mkSp ["cap", "cap", "counit", "unit", "cup", "cup"] [0, 1, 2, 3, 1, 0],
  mkSp ["cap", "cap", "counit", "cup", "unit", "cup"] [0, 1, 2, 1, 1, 0],
  mkSp ["cap", "cap", "counit", "unit", "cup", "cup"] [0, 1, 2, 1, 2, 0],
  mkSp ["cap", "cap", "unit", "counit", "cup", "cup"] [0, 1, 1, 3, 2, 0],
  mkSp ["cap", "unit", "cap", "counit", "cup", "cup"] [0, 1, 2, 3, 2, 0],
  mkSp ["cap", "unit", "cap", "counit", "cup", "cup"] [0, 1, 2, 3, 0, 0],
  mkSp ["cap", "unit", "cap", "cup", "counit", "cup"] [0, 1, 2, 0, 1, 0],
  mkSp ["cap", "unit", "cup", "cap", "counit", "cup"] [0, 1, 0, 0, 1, 0],
  mkSp ["cap", "unit", "cap", "cup", "counit", "cup"] [0, 1, 0, 2, 1, 0],
  mkSp ["cap", "cap", "unit", "cup", "counit", "cup"] [0, 0, 3, 2, 1, 0],
  mkSp ["cap", "cap", "unit", "cup", "counit", "cup"] [0, 2, 3, 2, 1, 0],
  mkSp ["cap", "cap", "unit", "counit", "cup", "cup"] [0, 2, 3, 1, 1, 0],
  mkSp ["cap", "cap", "counit", "unit", "cup", "cup"] [0, 2, 1, 2, 1, 0],
  mkSp ["cap", "counit", "cap", "unit", "cup", "cup"] [0, 1, 1, 2, 1, 0],
  mkSp ["cap", "cap", "counit", "unit", "cup", "cup"] [0, 1, 3, 2, 1, 0],
  mkSp ["cap", "cap", "unit", "counit", "cup", "cup"] [0, 1, 2, 4, 1, 0],
  mkSp ["cap", "cap", "unit", "cup", "counit", "cup"] [0, 1, 2, 1, 2, 0],
  mkSp ["cap", "cap", "unit", "cup", "cup", "counit"] [0, 1, 2, 1, 0, 0]]

/-- The spiral of size 5, written out literally. -/
def spStart5 : Diagram :=
mkSp ["unit", "cap", "cap", "cap", "cap", "cap", "counit", "cup", "cup", "cup", "cup", "cup"] [0, 0, 1, 2, 3, 4, 5, 4, 3, 2, 1, 0]

/-- The sequence of diagrams yielded by normalising the spiral of size 5. -/
def spTraj5 : List Diagram := [
  mkSp ["cap", "unit", "cap", "cap", "cap", "cap", "counit", "cup", "cup", "cup", "cup", "cup"] [0, 2, 1, 2, 3, 4, 5, 4, 3, 2, 1, 0],
  mkSp ["cap", "cap", "unit", "cap", "cap", "cap", "counit", "cup", "cup", "cup", "cup", "cup"] [0, 1, 4, 2, 3, 4, 5, 4, 3, 2, 1, 0],
  mkSp ["cap", "cap", "cap", "unit", "cap", "cap", "counit", "cup", "cup", "cup", "cup", "cup"] [0, 1, 2, 6, 3, 4, 5, 4, 3, 2, 1, 0],
  mkSp ["cap", "cap", "cap", "cap", "unit", "cap", "counit", "cup", "cup", "cup", "cup", "cup"] [0, 1, 2, 3, 8, 4, 5, 4, 3, 2, 1, 0],
  mkSp ["cap", "cap", "cap", "cap", "cap", "unit", "counit", "cup", "cup", "cup", "cup", "cup"] [0, 1, 2, 3, 4, 10, 5, 4, 3, 2, 1, 0],
  mkSp ["cap", "cap", "cap", "cap", "cap", "counit", "unit", "cup", "cup", "cup", "cup", "cup"] [0, 1, 2, 3, 4, 5, 9, 4, 3, 2, 1, 0],
  mkSp ["cap", "cap", "cap", "cap", "cap", "counit", "cup", "unit", "cup", "cup", "cup", "cup"] [0, 1, 2, 3, 4, 5, 4, 7, 3, 2, 1, 0],
  mkSp ["cap", "cap", "cap", "cap", "cap", "counit", "cup", "cup", "unit", "cup", "cup", "cup"] [0, 1, 2, 3, 4, 5, 4, 3, 5, 2, 1, 0],
  mkSp ["cap", "cap", "cap", "cap", "cap", "counit", "cup", "cup", "cup", "unit", "cup", "cup"] [0, 1, 2, 3, 4, 5, 4, 3, 2, 3, 1, 0],
  mkSp ["cap", "cap", "cap", "cap", "cap", "counit", "cup", "cup", "cup", "cup", "unit", "cup"] [0, 1, 2, 3, 4, 5, 4, 3, 2, 1, 1, 0],
  mkSp ["cap", "cap", "cap", "cap", "cap", "counit", "cup", "cup", "cup", "unit", "cup", "cup"] [0, 1, 2, 3, 4, 5, 4, 3, 2, 1, 2, 0],
  mkSp ["cap", "cap", "cap", "cap", "cap", "counit", "cup", "cup", "unit", "cup", "cup", "cup"] [0, 1, 2, 3, 4, 5, 4, 3, 1, 3, 2, 0],
  mkSp ["cap", "cap", "cap", "cap", "cap", "counit", "cup", "unit", "cup", "cup", "cup", "cup"] [0, 1, 2, 3, 4, 5, 4, 1, 4, 3, 2, 0],
  mkSp ["cap", "cap", "cap", "cap", "cap", "counit", "unit", "cup", "cup", "cup", "cup", "cup"] [0, 1, 2, 3, 4, 5, 1, 5, 4, 3, 2, 0],
  mkSp ["cap", "cap", "cap", "cap", "cap", "unit", "counit", "cup", "cup", "cup", "cup", "cup"] [0, 1, 2, 3, 4, 1, 6, 5, 4, 3, 2, 0],
  mkSp ["cap", "cap", "cap", "cap", "unit", "cap", "counit", "cup", "cup", "cup", "cup", "cup"] [0, 1, 2, 3, 1, 5, 6, 5, 4, 3, 2, 0],
  mkSp ["cap", "cap", "cap", "unit", "cap", "cap", "counit", "cup", "cup", "cup", "cup", "cup"] [0, 1, 2, 1, 4, 5, 6, 5, 4, 3, 2, 0],
  mkSp ["cap", "cap", "unit", "cap", "cap", "cap", "counit", "cup", "cup", "cup", "cup", "cup"] [0, 1, 1, 3, 4, 5, 6, 5, 4, 3, 2, 0],
  mkSp ["cap", "unit", "cap", "cap", "cap", "cap", "counit", "cup", "cup", "cup", "cup", "cup"] [0, 1, 2, 3, 4, 5, 6, 5, 4, 3, 2, 0],
  mkSp ["cap", "unit", "cap", "cap", "cap", "cap", "counit", "cup", "cup", "cup", "cup", "cup"] [0, 1, 2, 3, 4, 5, 6, 5, 4, 3, 0, 0],
  mkSp ["cap", "unit", "cap", "cap", "cap", "cap", "counit", "cup", "cup", "cup", "cup", "cup"] [0, 1, 2, 3, 4, 5, 6, 5, 4, 0, 1, 0],
  mkSp ["cap", "unit", "cap", "cap", "cap", "cap", "counit", "cup", "cup", "cup", "cup", "cup"] [0, 1, 2, 3, 4, 5, 6, 5, 0, 2, 1, 0],
  mkSp ["cap", "unit", "cap", "cap", "cap", "cap", "counit", "cup", "cup", "cup", "cup", "cup"] [0, 1, 2, 3, 4, 5, 6, 0, 3, 2, 1, 0],
  mkSp ["cap", "unit", "cap", "cap", "cap", "cap", "cup", "counit", "cup", "cup", "cup", "cup"] [0, 1, 2, 3, 4, 5, 0, 4, 3, 2, 1, 0],
  mkSp ["cap", "unit", "cap", "cap", "cap", "cup", "cap", "counit", "cup", "cup", "cup", "cup"] [0, 1, 2, 3, 4, 0, 3, 4, 3, 2, 1, 0],
  mkSp ["cap", "unit", "cap", "cap", "cup", "cap", "cap", "counit", "cup", "cup", "cup", "cup"] [0, 1, 2, 3, 0, 2, 3, 4, 3, 2, 1, 0],
  mkSp ["cap", "unit", "cap", "cup", "cap", "cap", "cap", "counit", "cup", "cup", "cup", "cup"] [0, 1, 2, 0, 1, 2, 3, 4, 3, 2, 1, 0],
  mkSp ["cap", "unit", "cup", "cap", "cap", "cap", "cap", "counit", "cup", "cup", "cup", "cup"] [0, 1, 0, 0, 1, 2, 3, 4, 3, 2, 1, 0],
  mkSp ["cap", "unit", "cap", "cup", "cap", "cap", "cap", "counit", "cup", "cup", "cup", "cup"] [0, 1, 0, 2, 1, 2, 3, 4, 3, 2, 1, 0],
  mkSp ["cap", "cap", "unit", "cup", "cap", "cap", "cap", "counit", "cup", "cup", "cup", "cup"] [0, 0, 3, 2, 1, 2, 3, 4, 3, 2, 1, 0],
  mkSp ["cap", "cap", "unit", "cup", "cap", "cap", "cap", "counit", "cup", "cup", "cup", "cup"] [0, 2, 3, 2, 1, 2, 3, 4, 3, 2, 1, 0],
  mkSp ["cap", "cap", "unit", "cap", "cup", "cap", "cap", "counit", "cup", "cup", "cup", "cup"] [0, 2, 3, 1, 4, 2, 3, 4, 3, 2, 1, 0],
  mkSp ["cap", "cap", "cap", "unit", "cup", "cap", "cap", "counit", "cup", "cup", "cup", "cup"] [0, 2, 1, 5, 4, 2, 3, 4, 3, 2, 1, 0],
  mkSp ["cap", "cap", "cap", "unit", "cup", "cap", "cap", "counit", "cup", "cup", "cup", "cup"] [0, 1, 4, 5, 4, 2, 3, 4, 3, 2, 1, 0],
  mkSp ["cap", "cap", "cap", "unit", "cap", "cup", "cap", "counit", "cup", "cup", "cup", "cup"] [0, 1, 4, 5, 2, 6, 3, 4, 3, 2, 1, 0],
  mkSp ["cap", "cap", "cap", "cap", "unit", "cup", "cap", "counit", "cup", "cup", "cup", "cup"] [0, 1, 4, 2, 7, 6, 3, 4, 3, 2, 1, 0],
  mkSp ["cap", "cap", "cap", "cap", "unit", "cup", "cap", "counit", "cup", "cup", "cup", "cup"] [0, 1, 2, 6, 7, 6, 3, 4, 3, 2, 1, 0],
  mkSp ["cap", "cap", "cap", "cap", "unit", "cap", "cup", "counit", "cup", "cup", "cup", "cup"] [0, 1, 2, 6, 7, 3, 8, 4, 3, 2, 1, 0],
  mkSp ["cap", "cap", "cap", "cap", "cap", "unit", "cup", "counit", "cup", "cup", "cup", "cup"] [0, 1, 2, 6, 3, 9, 8, 4, 3, 2, 1, 0],
  mkSp ["cap", "cap", "cap", "cap", "cap", "unit", "cup", "counit", "cup", "cup", "cup", "cup"] [0, 1, 2, 3, 8, 9, 8, 4, 3, 2, 1, 0],
  mkSp ["cap", "cap", "cap", "cap", "cap", "unit", "counit", "cup", "cup", "cup", "cup", "cup"] [0, 1, 2, 3, 8, 9, 4, 7, 3, 2, 1, 0],
  mkSp ["cap", "cap", "cap", "cap", "cap", "counit", "unit", "cup", "cup", "cup", "cup", "cup"] [0, 1, 2, 3, 8, 4, 8, 7, 3, 2, 1, 0],
  mkSp ["cap", "cap", "cap", "cap", "counit", "cap", "unit", "cup", "cup", "cup", "cup", "cup"] [0, 1, 2, 3, 4, 7, 8, 7, 3, 2, 1, 0],
  mkSp ["cap", "cap", "cap", "cap", "counit", "cap", "unit", "cup", "cup", "cup", "cup", "cup"] [0, 1, 2, 3, 4, 7, 8, 3, 5, 2, 1, 0],
  mkSp ["cap", "cap", "cap", "cap", "counit", "cap", "cup", "unit", "cup", "cup", "cup", "cup"] [0, 1, 2, 3, 4, 7, 3, 6, 5, 2, 1, 0],
  mkSp ["cap", "cap", "cap", "cap", "counit", "cup", "cap", "unit", "cup", "cup", "cup", "cup"] [0, 1, 2, 3, 4, 3, 5, 6, 5, 2, 1, 0],
  mkSp ["cap", "cap", "cap", "cap", "counit", "cup", "cap", "unit", "cup", "cup", "cup", "cup"] [0, 1, 2, 3, 4, 3, 5, 6, 2, 3, 1, 0],
  mkSp ["cap", "cap", "cap", "cap", "counit", "cup", "cap", "cup", "unit", "cup", "cup", "cup"] [0, 1, 2, 3, 4, 3, 5, 2, 4, 3, 1, 0],
  mkSp ["cap", "cap", "cap", "cap", "counit", "cup", "cup", "cap", "unit", "cup", "cup", "cup"] [0, 1, 2, 3, 4, 3, 2, 3, 4, 3, 1, 0],
  mkSp ["cap", "cap", "cap", "cap", "counit", "cup", "cup", "cap", "unit", "cup", "cup", "cup"] [0, 1, 2, 3, 4, 3, 2, 3, 4, 1, 1, 0],
  mkSp ["cap", "cap", "cap", "cap", "counit", "cup", "cup", "cap", "cup", "unit", "cup", "cup"] [0, 1, 2, 3, 4, 3, 2, 3, 1, 2, 1, 0],
  mkSp ["cap", "cap", "cap", "cap", "counit", "cup", "cup", "cup", "cap", "unit", "cup", "cup"] [0, 1, 2, 3, 4, 3, 2, 1, 1, 2, 1, 0],
  mkSp ["cap", "cap", "cap", "cap", "counit", "cup", "cup", "cap", "cup", "unit", "cup", "cup"] [0, 1, 2, 3, 4, 3, 2, 1, 3, 2, 1, 0],
  mkSp ["cap", "cap", "cap", "cap", "counit", "cup", "cap", "cup", "cup", "unit", "cup", "cup"] [0, 1, 2, 3, 4, 3, 1, 4, 3, 2, 1, 0],
  mkSp ["cap", "cap", "cap", "cap", "counit", "cap", "cup", "cup", "cup", "unit", "cup", "cup"] [0, 1, 2, 3, 4, 1, 5, 4, 3, 2, 1, 0],
  mkSp ["cap", "cap", "cap", "cap", "cap", "counit", "cup", "cup", "cup", "unit", "cup", "cup"] [0, 1, 2, 3, 1, 6, 5, 4, 3, 2, 1, 0],
  mkSp ["cap", "cap", "cap", "cap", "cap", "counit", "cup", "cup", "cup", "unit", "cup", "cup"] [0, 1, 2, 1, 5, 6, 5, 4, 3, 2, 1, 0],
  mkSp ["cap", "cap", "cap", "cap", "cap", "counit", "cup", "cup", "cup", "unit", "cup", "cup"] [0, 1, 1, 4, 5, 6, 5, 4, 3, 2, 1, 0],
  mkSp ["cap", "cap", "cap", "cap", "cap", "counit", "cup", "cup", "cup", "unit", "cup", "cup"] [0, 1, 3, 4, 5, 6, 5, 4, 3, 2, 1, 0],
  mkSp ["cap", "cap", "cap", "cap", "cap", "counit", "cup", "cup", "unit", "cup", "cup", "cup"] [0, 1, 3, 4, 5, 6, 5, 4, 2, 4, 1, 0],
  mkSp ["cap", "cap", "cap", "cap", "cap", "counit", "cup", "unit", "cup", "cup", "cup", "cup"] [0, 1, 3, 4, 5, 6, 5, 2, 5, 4, 1, 0],
  mkSp ["cap", "cap", "cap", "cap", "cap", "counit", "unit", "cup", "cup", "cup", "cup", "cup"] [0, 1, 3, 4, 5, 6, 2, 6, 5, 4, 1, 0],
  mkSp ["cap", "cap", "cap", "cap", "cap", "unit", "counit", "cup", "cup", "cup", "cup", "cup"] [0, 1, 3, 4, 5, 2, 7, 6, 5, 4, 1, 0],
  mkSp ["cap", "cap", "cap", "cap", "unit", "cap", "counit", "cup", "cup", "cup", "cup", "cup"] [0, 1, 3, 4, 2, 6, 7, 6, 5, 4, 1, 0],
  mkSp ["cap", "cap", "cap", "unit", "cap", "cap", "counit", "cup", "cup", "cup", "cup", "cup"] [0, 1, 3, 2, 5, 6, 7, 6, 5, 4, 1, 0],
  mkSp ["cap", "cap", "unit", "cap", "cap", "cap", "counit", "cup", "cup", "cup", "cup", "cup"] [0, 1, 2, 4, 5, 6, 7, 6, 5, 4, 1, 0],
  mkSp ["cap", "cap", "unit", "cap", "cap", "cap", "counit", "cup", "cup", "cup", "cup", "cup"] [0, 1, 2, 4, 5, 6, 7, 6, 5, 1, 2, 0],
  mkSp ["cap", "cap", "unit", "cap", "cap", "cap", "counit", "cup", "cup", "cup", "cup", "cup"] [0, 1, 2, 4, 5, 6, 7, 6, 1, 3, 2, 0],
  mkSp ["cap", "cap", "unit", "cap", "cap", "cap", "counit", "cup", "cup", "cup", "cup", "cup"] [0, 1, 2, 4, 5, 6, 7, 1, 4, 3, 2, 0],
  mkSp ["cap", "cap", "unit", "cap", "cap", "cap", "cup", "counit", "cup", "cup", "cup", "cup"] [0, 1, 2, 4, 5, 6, 1, 5, 4, 3, 2, 0],
  mkSp ["cap", "cap", "unit", "cap", "cap", "cup", "cap", "counit", "cup", "cup", "cup", "cup"] [0, 1, 2, 4, 5, 1, 4, 5, 4, 3, 2, 0],
  mkSp ["cap", "cap", "unit", "cap", "cup", "cap", "cap", "counit", "cup", "cup", "cup", "cup"] [0, 1, 2, 4, 1, 3, 4, 5, 4, 3, 2, 0],
  mkSp ["cap", "cap", "unit", "cup", "cap", "cap", "cap", "counit", "cup", "cup", "cup", "cup"] [0, 1, 2, 1, 2, 3, 4, 5, 4, 3, 2, 0],
  mkSp ["cap", "cap", "unit", "cup", "cap", "cap", "cap", "counit", "cup", "cup", "cup", "cup"] [0, 1, 2, 1, 2, 3, 4, 5, 4, 3, 0, 0],
  mkSp ["cap", "cap", "unit", "cup", "cap", "cap", "cap", "counit", "cup", "cup", "cup", "cup"] [0, 1, 2, 1, 2, 3, 4, 5, 4, 0, 1, 0],
  mkSp ["cap", "cap", "unit", "cup", "cap", "cap", "cap", "counit", "cup", "cup", "cup", "cup"] [0, 1, 2, 1, 2, 3, 4, 5, 0, 2, 1, 0],
  mkSp ["cap", "cap", "unit", "cup", "cap", "cap", "cap", "cup", "counit", "cup", "cup", "cup"] [0, 1, 2, 1, 2, 3, 4, 0, 3, 2, 1, 0],
  mkSp ["cap", "cap", "unit", "cup", "cap", "cap", "cup", "cap", "counit", "cup", "cup", "cup"] [0, 1, 2, 1, 2, 3, 0, 2, 3, 2, 1, 0],
  mkSp ["cap", "cap", "unit", "cup", "cap", "cup", "cap", "cap", "counit", "cup", "cup", "cup"] [0, 1, 2, 1, 2, 0, 1, 2, 3, 2, 1, 0],
  mkSp ["cap", "cap", "unit", "cup", "cup", "cap", "cap", "cap", "counit", "cup", "cup", "cup"] [0, 1, 2, 1, 0, 0, 1, 2, 3, 2, 1, 0],
  mkSp ["cap", "cap", "unit", "cup", "cap", "cup", "cap", "cap", "counit", "cup", "cup", "cup"] [0, 1, 2, 1, 0, 2, 1, 2, 3, 2, 1, 0],
  mkSp ["cap", "cap", "unit", "cap", "cup", "cup", "cap", "cap", "counit", "cup", "cup", "cup"] [0, 1, 2, 0, 3, 2, 1, 2, 3, 2, 1, 0],
  mkSp ["cap", "cap", "cap", "unit", "cup", "cup", "cap", "cap", "counit", "cup", "cup", "cup"] [0, 1, 0, 4, 3, 2, 1, 2, 3, 2, 1, 0],
  mkSp ["cap", "cap", "cap", "unit", "cup", "cup", "cap", "cap", "counit", "cup", "cup", "cup"] [0, 0, 3, 4, 3, 2, 1, 2, 3, 2, 1, 0],
  mkSp ["cap", "cap", "cap", "unit", "cup", "cup", "cap", "cap", "counit", "cup", "cup", "cup"] [0, 2, 3, 4, 3, 2, 1, 2, 3, 2, 1, 0],
  mkSp ["cap", "cap", "cap", "unit", "cup", "cap", "cup", "cap", "counit", "cup", "cup", "cup"] [0, 2, 3, 4, 3, 1, 4, 2, 3, 2, 1, 0],
  mkSp ["cap", "cap", "cap", "unit", "cap", "cup", "cup", "cap", "counit", "cup", "cup", "cup"] [0, 2, 3, 4, 1, 5, 4, 2, 3, 2, 1, 0],
  mkSp ["cap", "cap", "cap", "cap", "unit", "cup", "cup", "cap", "counit", "cup", "cup", "cup"] [0, 2, 3, 1, 6, 5, 4, 2, 3, 2, 1, 0],
  mkSp ["cap", "cap", "cap", "cap", "unit", "cup", "cup", "cap", "counit", "cup", "cup", "cup"] [0, 2, 1, 5, 6, 5, 4, 2, 3, 2, 1, 0],
  mkSp ["cap", "cap", "cap", "cap", "unit", "cup", "cup", "cap", "counit", "cup", "cup", "cup"] [0, 1, 4, 5, 6, 5, 4, 2, 3, 2, 1, 0],
  mkSp ["cap", "cap", "cap", "cap", "unit", "cup", "cap", "cup", "counit", "cup", "cup", "cup"] [0, 1, 4, 5, 6, 5, 2, 6, 3, 2, 1, 0],
  mkSp ["cap", "cap", "cap", "cap", "unit", "cap", "cup", "cup", "counit", "cup", "cup", "cup"] [0, 1, 4, 5, 6, 2, 7, 6, 3, 2, 1, 0],
  mkSp ["cap", "cap", "cap", "cap", "cap", "unit", "cup", "cup", "counit", "cup", "cup", "cup"] [0, 1, 4, 5, 2, 8, 7, 6, 3, 2, 1, 0],
  mkSp ["cap", "cap", "cap", "cap", "cap", "unit", "cup", "cup", "counit", "cup", "cup", "cup"] [0, 1, 4, 2, 7, 8, 7, 6, 3, 2, 1, 0],
  mkSp ["cap", "cap", "cap", "cap", "cap", "unit", "cup", "cup", "counit", "cup", "cup", "cup"] [0, 1, 2, 6, 7, 8, 7, 6, 3, 2, 1, 0],
  mkSp ["cap", "cap", "cap", "cap", "cap", "unit", "cup", "counit", "cup", "cup", "cup", "cup"] [0, 1, 2, 6, 7, 8, 7, 3, 5, 2, 1, 0],
  mkSp ["cap", "cap", "cap", "cap", "cap", "unit", "counit", "cup", "cup", "cup", "cup", "cup"] [0, 1, 2, 6, 7, 8, 3, 6, 5, 2, 1, 0],
  mkSp ["cap", "cap", "cap", "cap", "cap", "counit", "unit", "cup", "cup", "cup", "cup", "cup"] [0, 1, 2, 6, 7, 3, 7, 6, 5, 2, 1, 0],
  mkSp ["cap", "cap", "cap", "cap", "counit", "cap", "unit", "cup", "cup", "cup", "cup", "cup"] [0, 1, 2, 6, 3, 6, 7, 6, 5, 2, 1, 0],
  mkSp ["cap", "cap", "cap", "counit", "cap", "cap", "unit", "cup", "cup", "cup", "cup", "cup"] [0, 1, 2, 3, 5, 6, 7, 6, 5, 2, 1, 0],
  mkSp ["cap", "cap", "cap", "counit", "cap", "cap", "unit", "cup", "cup", "cup", "cup", "cup"] [0, 1, 2, 3, 5, 6, 7, 6, 2, 3, 1, 0],
  mkSp ["cap", "cap", "cap", "counit", "cap", "cap", "unit", "cup", "cup", "cup", "cup", "cup"] [0, 1, 2, 3, 5, 6, 7, 2, 4, 3, 1, 0],
  mkSp ["cap", "cap", "cap", "counit", "cap", "cap", "cup", "unit", "cup", "cup", "cup", "cup"] [0, 1, 2, 3, 5, 6, 2, 5, 4, 3, 1, 0],
  mkSp ["cap", "cap", "cap", "counit", "cap", "cup", "cap", "unit", "cup", "cup", "cup", "cup"] [0, 1, 2, 3, 5, 2, 4, 5, 4, 3, 1, 0],
  mkSp ["cap", "cap", "cap", "counit", "cup", "cap", "cap", "unit", "cup", "cup", "cup", "cup"] [0, 1, 2, 3, 2, 3, 4, 5, 4, 3, 1, 0],
  mkSp ["cap", "cap", "cap", "counit", "cup", "cap", "cap", "unit", "cup", "cup", "cup", "cup"] [0, 1, 2, 3, 2, 3, 4, 5, 4, 1, 1, 0],
  mkSp ["cap", "cap", "cap", "counit", "cup", "cap", "cap", "unit", "cup", "cup", "cup", "cup"] [0, 1, 2, 3, 2, 3, 4, 5, 1, 2, 1, 0],
  mkSp ["cap", "cap", "cap", "counit", "cup", "cap", "cap", "cup", "unit", "cup", "cup", "cup"] [0, 1, 2, 3, 2, 3, 4, 1, 3, 2, 1, 0],
  mkSp ["cap", "cap", "cap", "counit", "cup", "cap", "cup", "cap", "unit", "cup", "cup", "cup"] [0, 1, 2, 3, 2, 3, 1, 2, 3, 2, 1, 0],
  mkSp ["cap", "cap", "cap", "counit", "cup", "cup", "cap", "cap", "unit", "cup", "cup", "cup"] [0, 1, 2, 3, 2, 1, 1, 2, 3, 2, 1, 0],
  mkSp ["cap", "cap", "cap", "counit", "cup", "cap", "cup", "cap", "unit", "cup", "cup", "cup"] [0, 1, 2, 3, 2, 1, 3, 2, 3, 2, 1, 0],
  mkSp ["cap", "cap", "cap", "counit", "cap", "cup", "cup", "cap", "unit", "cup", "cup", "cup"] [0, 1, 2, 3, 1, 4, 3, 2, 3, 2, 1, 0],
  mkSp ["cap", "cap", "cap", "cap", "counit", "cup", "cup", "cap", "unit", "cup", "cup", "cup"] [0, 1, 2, 1, 5, 4, 3, 2, 3, 2, 1, 0],
  mkSp ["cap", "cap", "cap", "cap", "counit", "cup", "cup", "cap", "unit", "cup", "cup", "cup"] [0, 1, 1, 4, 5, 4, 3, 2, 3, 2, 1, 0],
  mkSp ["cap", "cap", "cap", "cap", "counit", "cup", "cup", "cap", "unit", "cup", "cup", "cup"] [0, 1, 3, 4, 5, 4, 3, 2, 3, 2, 1, 0],
  mkSp ["cap", "cap", "cap", "cap", "counit", "cup", "cap", "cup", "unit", "cup", "cup", "cup"] [0, 1, 3, 4, 5, 4, 2, 5, 3, 2, 1, 0],
  mkSp ["cap", "cap", "cap", "cap", "counit", "cap", "cup", "cup", "unit", "cup", "cup", "cup"] [0, 1, 3, 4, 5, 2, 6, 5, 3, 2, 1, 0],
  mkSp ["cap", "cap", "cap", "cap", "cap", "counit", "cup", "cup", "unit", "cup", "cup", "cup"] [0, 1, 3, 4, 2, 7, 6, 5, 3, 2, 1, 0],
  mkSp ["cap", "cap", "cap", "cap", "cap", "counit", "cup", "cup", "unit", "cup", "cup", "cup"] [0, 1, 3, 2, 6, 7, 6, 5, 3, 2, 1, 0],
  mkSp ["cap", "cap", "cap", "cap", "cap", "counit", "cup", "cup", "unit", "cup", "cup", "cup"] [0, 1, 2, 5, 6, 7, 6, 5, 3, 2, 1, 0],
  mkSp ["cap", "cap", "cap", "cap", "cap", "counit", "cup", "unit", "cup", "cup", "cup", "cup"] [0, 1, 2, 5, 6, 7, 6, 3, 6, 2, 1, 0],
  mkSp ["cap", "cap", "cap", "cap", "cap", "counit", "unit", "cup", "cup", "cup", "cup", "cup"] [0, 1, 2, 5, 6, 7, 3, 7, 6, 2, 1, 0],
  mkSp ["cap", "cap", "cap", "cap", "cap", "unit", "counit", "cup", "cup", "cup", "cup", "cup"] [0, 1, 2, 5, 6, 3, 8, 7, 6, 2, 1, 0],
  mkSp ["cap", "cap", "cap", "cap", "unit", "cap", "counit", "cup", "cup", "cup", "cup", "cup"] [0, 1, 2, 5, 3, 7, 8, 7, 6, 2, 1, 0],
  mkSp ["cap", "cap", "cap", "unit", "cap", "cap", "counit", "cup", "cup", "cup", "cup", "cup"] [0, 1, 2, 3, 6, 7, 8, 7, 6, 2, 1, 0],
  mkSp ["cap", "cap", "cap", "unit", "cap", "cap", "counit", "cup", "cup", "cup", "cup", "cup"] [0, 1, 2, 3, 6, 7, 8, 7, 2, 4, 1, 0],
  mkSp ["cap", "cap", "cap", "unit", "cap", "cap", "counit", "cup", "cup", "cup", "cup", "cup"] [0, 1, 2, 3, 6, 7, 8, 2, 5, 4, 1, 0],
  mkSp ["cap", "cap", "cap", "unit", "cap", "cap", "cup", "counit", "cup", "cup", "cup", "cup"] [0, 1, 2, 3, 6, 7, 2, 6, 5, 4, 1, 0],
  mkSp ["cap", "cap", "cap", "unit", "cap", "cup", "cap", "counit", "cup", "cup", "cup", "cup"] [0, 1, 2, 3, 6, 2, 5, 6, 5, 4, 1, 0],
  mkSp ["cap", "cap", "cap", "unit", "cup", "cap", "cap", "counit", "cup", "cup", "cup", "cup"] [0, 1, 2, 3, 2, 4, 5, 6, 5, 4, 1, 0],
  mkSp ["cap", "cap", "cap", "unit", "cup", "cap", "cap", "counit", "cup", "cup", "cup", "cup"] [0, 1, 2, 3, 2, 4, 5, 6, 5, 1, 2, 0],
  mkSp ["cap", "cap", "cap", "unit", "cup", "cap", "cap", "counit", "cup", "cup", "cup", "cup"] [0, 1, 2, 3, 2, 4, 5, 6, 1, 3, 2, 0],
  mkSp ["cap", "cap", "cap", "unit", "cup", "cap", "cap", "cup", "counit", "cup", "cup", "cup"] [0, 1, 2, 3, 2, 4, 5, 1, 4, 3, 2, 0],
  mkSp ["cap", "cap", "cap", "unit", "cup", "cap", "cup", "cap", "counit", "cup", "cup", "cup"] [0, 1, 2, 3, 2, 4, 1, 3, 4, 3, 2, 0],
  mkSp ["cap", "cap", "cap", "unit", "cup", "cup", "cap", "cap", "counit", "cup", "cup", "cup"] [0, 1, 2, 3, 2, 1, 2, 3, 4, 3, 2, 0],
  mkSp ["cap", "cap", "cap", "unit", "cup", "cup", "cap", "cap", "counit", "cup", "cup", "cup"] [0, 1, 2, 3, 2, 1, 2, 3, 4, 3, 0, 0],
  mkSp ["cap", "cap", "cap", "unit", "cup", "cup", "cap", "cap", "counit", "cup", "cup", "cup"] [0, 1, 2, 3, 2, 1, 2, 3, 4, 0, 1, 0],
  mkSp ["cap", "cap", "cap", "unit", "cup", "cup", "cap", "cap", "cup", "counit", "cup", "cup"] [0, 1, 2, 3, 2, 1, 2, 3, 0, 2, 1, 0],
  mkSp ["cap", "cap", "cap", "unit", "cup", "cup", "cap", "cup", "cap", "counit", "cup", "cup"] [0, 1, 2, 3, 2, 1, 2, 0, 1, 2, 1, 0],
  mkSp ["cap", "cap", "cap", "unit", "cup", "cup", "cup", "cap", "cap", "counit", "cup", "cup"] [0, 1, 2, 3, 2, 1, 0, 0, 1, 2, 1, 0],
  mkSp ["cap", "cap", "cap", "unit", "cup", "cup", "cap", "cup", "cap", "counit", "cup", "cup"] [0, 1, 2, 3, 2, 1, 0, 2, 1, 2, 1, 0],
  mkSp ["cap", "cap", "cap", "unit", "cup", "cap", "cup", "cup", "cap", "counit", "cup", "cup"] [0, 1, 2, 3, 2, 0, 3, 2, 1, 2, 1, 0],
  mkSp ["cap", "cap", "cap", "unit", "cap", "cup", "cup", "cup", "cap", "counit", "cup", "cup"] [0, 1, 2, 3, 0, 4, 3, 2, 1, 2, 1, 0],
  mkSp ["cap", "cap", "cap", "cap", "unit", "cup", "cup", "cup", "cap", "counit", "cup", "cup"] [0, 1, 2, 0, 5, 4, 3, 2, 1, 2, 1, 0],
  mkSp ["cap", "cap", "cap", "cap", "unit", "cup", "cup", "cup", "cap", "counit", "cup", "cup"] [0, 1, 0, 4, 5, 4, 3, 2, 1, 2, 1, 0],
  mkSp ["cap", "cap", "cap", "cap", "unit", "cup", "cup", "cup", "cap", "counit", "cup", "cup"] [0, 0, 3, 4, 5, 4, 3, 2, 1, 2, 1, 0],
  mkSp ["cap", "cap", "cap", "cap", "unit", "cup", "cup", "cup", "cap", "counit", "cup", "cup"] [0, 2, 3, 4, 5, 4, 3, 2, 1, 2, 1, 0],
  mkSp ["cap", "cap", "cap", "cap", "unit", "cup", "cup", "cap", "cup", "counit", "cup", "cup"] [0, 2, 3, 4, 5, 4, 3, 1, 4, 2, 1, 0],
  mkSp ["cap", "cap", "cap", "cap", "unit", "cup", "cap", "cup", "cup", "counit", "cup", "cup"] [0, 2, 3, 4, 5, 4, 1, 5, 4, 2, 1, 0],
  mkSp ["cap", "cap", "cap", "cap", "unit", "cap", "cup", "cup", "cup", "counit", "cup", "cup"] [0, 2, 3, 4, 5, 1, 6, 5, 4, 2, 1, 0],
  mkSp ["cap", "cap", "cap", "cap", "cap", "unit", "cup", "cup", "cup", "counit", "cup", "cup"] [0, 2, 3, 4, 1, 7, 6, 5, 4, 2, 1, 0],
  mkSp ["cap", "cap", "cap", "cap", "cap", "unit", "cup", "cup", "cup", "counit", "cup", "cup"] [0, 2, 3, 1, 6, 7, 6, 5, 4, 2, 1, 0],
  mkSp ["cap", "cap", "cap", "cap", "cap", "unit", "cup", "cup", "cup", "counit", "cup", "cup"] [0, 2, 1, 5, 6, 7, 6, 5, 4, 2, 1, 0],
  mkSp ["cap", "cap", "cap", "cap", "cap", "unit", "cup", "cup", "cup", "counit", "cup", "cup"] [0, 1, 4, 5, 6, 7, 6, 5, 4, 2, 1, 0],
  mkSp ["cap", "cap", "cap", "cap", "cap", "unit", "cup", "cup", "counit", "cup", "cup", "cup"] [0, 1, 4, 5, 6, 7, 6, 5, 2, 3, 1, 0],
  mkSp ["cap", "cap", "cap", "cap", "cap", "unit", "cup", "counit", "cup", "cup", "cup", "cup"] [0, 1, 4, 5, 6, 7, 6, 2, 4, 3, 1, 0],
  mkSp ["cap", "cap", "cap", "cap", "cap", "unit", "counit", "cup", "cup", "cup", "cup", "cup"] [0, 1, 4, 5, 6, 7, 2, 5, 4, 3, 1, 0],
  mkSp ["cap", "cap", "cap", "cap", "cap", "counit", "unit", "cup", "cup", "cup", "cup", "cup"] [0, 1, 4, 5, 6, 2, 6, 5, 4, 3, 1, 0],
  mkSp ["cap", "cap", "cap", "cap", "counit", "cap", "unit", "cup", "cup", "cup", "cup", "cup"] [0, 1, 4, 5, 2, 5, 6, 5, 4, 3, 1, 0],
  mkSp ["cap", "cap", "cap", "counit", "cap", "cap", "unit", "cup", "cup", "cup", "cup", "cup"] [0, 1, 4, 2, 4, 5, 6, 5, 4, 3, 1, 0],
  mkSp ["cap", "cap", "counit", "cap", "cap", "cap", "unit", "cup", "cup", "cup", "cup", "cup"] [0, 1, 2, 3, 4, 5, 6, 5, 4, 3, 1, 0],
  mkSp ["cap", "cap", "counit", "cap", "cap", "cap", "unit", "cup", "cup", "cup", "cup", "cup"] [0, 1, 2, 3, 4, 5, 6, 5, 4, 1, 1, 0],
  mkSp ["cap", "cap", "counit", "cap", "cap", "cap", "unit", "cup", "cup", "cup", "cup", "cup"] [0, 1, 2, 3, 4, 5, 6, 5, 1, 2, 1, 0],
  mkSp ["cap", "cap", "counit", "cap", "cap", "cap", "unit", "cup", "cup", "cup", "cup", "cup"] [0, 1, 2, 3, 4, 5, 6, 1, 3, 2, 1, 0],
  mkSp ["cap", "cap", "counit", "cap", "cap", "cap", "cup", "unit", "cup", "cup", "cup", "cup"] [0, 1, 2, 3, 4, 5, 1, 4, 3, 2, 1, 0],
  mkSp ["cap", "cap", "counit", "cap", "cap", "cup", "cap", "unit", "cup", "cup", "cup", "cup"] [0, 1, 2, 3, 4, 1, 3, 4, 3, 2, 1, 0],
  mkSp ["cap", "cap", "counit", "cap", "cup", "cap", "cap", "unit", "cup", "cup", "cup", "cup"] [0, 1, 2, 3, 1, 2, 3, 4, 3, 2, 1, 0],
  mkSp ["cap", "cap", "counit", "cup", "cap", "cap", "cap", "unit", "cup", "cup", "cup", "cup"] [0, 1, 2, 1, 1, 2, 3, 4, 3, 2, 1, 0],
  mkSp ["cap", "cap", "counit", "cap", "cup", "cap", "cap", "unit", "cup", "cup", "cup", "cup"] [0, 1, 2, 1, 3, 2, 3, 4, 3, 2, 1, 0],
  mkSp ["cap", "cap", "cap", "counit", "cup", "cap", "cap", "unit", "cup", "cup", "cup", "cup"] [0, 1, 1, 4, 3, 2, 3, 4, 3, 2, 1, 0],
  mkSp ["cap", "cap", "cap", "counit", "cup", "cap", "cap", "unit", "cup", "cup", "cup", "cup"] [0, 1, 3, 4, 3, 2, 3, 4, 3, 2, 1, 0],
  mkSp ["cap", "cap", "cap", "counit", "cap", "cup", "cap", "unit", "cup", "cup", "cup", "cup"] [0, 1, 3, 4, 2, 5, 3, 4, 3, 2, 1, 0],
  mkSp ["cap", "cap", "cap", "cap", "counit", "cup", "cap", "unit", "cup", "cup", "cup", "cup"] [0, 1, 3, 2, 6, 5, 3, 4, 3, 2, 1, 0],
  mkSp ["cap", "cap", "cap", "cap", "counit", "cup", "cap", "unit", "cup", "cup", "cup", "cup"] [0, 1, 2, 5, 6, 5, 3, 4, 3, 2, 1, 0],
  mkSp ["cap", "cap", "cap", "cap", "counit", "cap", "cup", "unit", "cup", "cup", "cup", "cup"] [0, 1, 2, 5, 6, 3, 7, 4, 3, 2, 1, 0],
  mkSp ["cap", "cap", "cap", "cap", "cap", "counit", "cup", "unit", "cup", "cup", "cup", "cup"] [0, 1, 2, 5, 3, 8, 7, 4, 3, 2, 1, 0],
  mkSp ["cap", "cap", "cap", "cap", "cap", "counit", "cup", "unit", "cup", "cup", "cup", "cup"] [0, 1, 2, 3, 7, 8, 7, 4, 3, 2, 1, 0],
  mkSp ["cap", "cap", "cap", "cap", "cap", "counit", "unit", "cup", "cup", "cup", "cup", "cup"] [0, 1, 2, 3, 7, 8, 4, 8, 3, 2, 1, 0],
  mkSp ["cap", "cap", "cap", "cap", "cap", "unit", "counit", "cup", "cup", "cup", "cup", "cup"] [0, 1, 2, 3, 7, 4, 9, 8, 3, 2, 1, 0],
  mkSp ["cap", "cap", "cap", "cap", "unit", "cap", "counit", "cup", "cup", "cup", "cup", "cup"] [0, 1, 2, 3, 4, 8, 9, 8, 3, 2, 1, 0],
  mkSp ["cap", "cap", "cap", "cap", "unit", "cap", "counit", "cup", "cup", "cup", "cup", "cup"] [0, 1, 2, 3, 4, 8, 9, 3, 6, 2, 1, 0],
  mkSp ["cap", "cap", "cap", "cap", "unit", "cap", "cup", "counit", "cup", "cup", "cup", "cup"] [0, 1, 2, 3, 4, 8, 3, 7, 6, 2, 1, 0],
  mkSp ["cap", "cap", "cap", "cap", "unit", "cup", "cap", "counit", "cup", "cup", "cup", "cup"] [0, 1, 2, 3, 4, 3, 6, 7, 6, 2, 1, 0],
  mkSp ["cap", "cap", "cap", "cap", "unit", "cup", "cap", "counit", "cup", "cup", "cup", "cup"] [0, 1, 2, 3, 4, 3, 6, 7, 2, 4, 1, 0],
  mkSp ["cap", "cap", "cap", "cap", "unit", "cup", "cap", "cup", "counit", "cup", "cup", "cup"] [0, 1, 2, 3, 4, 3, 6, 2, 5, 4, 1, 0],
  mkSp ["cap", "cap", "cap", "cap", "unit", "cup", "cup", "cap", "counit", "cup", "cup", "cup"] [0, 1, 2, 3, 4, 3, 2, 4, 5, 4, 1, 0],
  mkSp ["cap", "cap", "cap", "cap", "unit", "cup", "cup", "cap", "counit", "cup", "cup", "cup"] [0, 1, 2, 3, 4, 3, 2, 4, 5, 1, 2, 0],
  mkSp ["cap", "cap", "cap", "cap", "unit", "cup", "cup", "cap", "cup", "counit", "cup", "cup"] [0, 1, 2, 3, 4, 3, 2, 4, 1, 3, 2, 0],
  mkSp ["cap", "cap", "cap", "cap", "unit", "cup", "cup", "cup", "cap", "counit", "cup", "cup"] [0, 1, 2, 3, 4, 3, 2, 1, 2, 3, 2, 0],
  mkSp ["cap", "cap", "cap", "cap", "unit", "cup", "cup", "cup", "cap", "counit", "cup", "cup"] [0, 1, 2, 3, 4, 3, 2, 1, 2, 3, 0, 0],
  mkSp ["cap", "cap", "cap", "cap", "unit", "cup", "cup", "cup", "cap", "cup", "counit", "cup"] [0, 1, 2, 3, 4, 3, 2, 1, 2, 0, 1, 0],
  mkSp ["cap", "cap", "cap", "cap", "unit", "cup", "cup", "cup", "cup", "cap", "counit", "cup"] [0, 1, 2, 3, 4, 3, 2, 1, 0, 0, 1, 0],
  mkSp ["cap", "cap", "cap", "cap", "unit", "cup", "cup", "cup", "cap", "cup", "counit", "cup"] [0, 1, 2, 3, 4, 3, 2, 1, 0, 2, 1, 0],
  mkSp ["cap", "cap", "cap", "cap", "unit", "cup", "cup", "cap", "cup", "cup", "counit", "cup"] [0, 1, 2, 3, 4, 3, 2, 0, 3, 2, 1, 0],
  mkSp ["cap", "cap", "cap", "cap", "unit", "cup", "cap", "cup", "cup", "cup", "counit", "cup"] [0, 1, 2, 3, 4, 3, 0, 4, 3, 2, 1, 0],
  mkSp ["cap", "cap", "cap", "cap", "unit", "cap", "cup", "cup", "cup", "cup", "counit", "cup"] [0, 1, 2, 3, 4, 0, 5, 4, 3, 2, 1, 0],
  mkSp ["cap", "cap", "cap", "cap", "cap", "unit", "cup", "cup", "cup", "cup", "counit", "cup"] [0, 1, 2, 3, 0, 6, 5, 4, 3, 2, 1, 0],
  mkSp ["cap", "cap", "cap", "cap", "cap", "unit", "cup", "cup", "cup", "cup", "counit", "cup"] [0, 1, 2, 0, 5, 6, 5, 4, 3, 2, 1, 0],
  mkSp ["cap", "cap", "cap", "cap", "cap", "unit", "cup", "cup", "cup", "cup", "counit", "cup"] [0, 1, 0, 4, 5, 6, 5, 4, 3, 2, 1, 0],
  mkSp ["cap", "cap", "cap", "cap", "cap", "unit", "cup", "cup", "cup", "cup", "counit", "cup"] [0, 0, 3, 4, 5, 6, 5, 4, 3, 2, 1, 0],
  mkSp ["cap", "cap", "cap", "cap", "cap", "unit", "cup", "cup", "cup", "cup", "counit", "cup"] [0, 2, 3, 4, 5, 6, 5, 4, 3, 2, 1, 0],
  mkSp ["cap", "cap", "cap", "cap", "cap", "unit", "cup", "cup", "cup", "counit", "cup", "cup"] [0, 2, 3, 4, 5, 6, 5, 4, 3, 1, 1, 0],
  mkSp ["cap", "cap", "cap", "cap", "cap", "unit", "cup", "cup", "counit", "cup", "cup", "cup"] [0, 2, 3, 4, 5, 6, 5, 4, 1, 2, 1, 0],
  mkSp ["cap", "cap", "cap", "cap", "cap", "unit", "cup", "counit", "cup", "cup", "cup", "cup"] [0, 2, 3, 4, 5, 6, 5, 1, 3, 2, 1, 0],
  mkSp ["cap", "cap", "cap", "cap", "cap", "unit", "counit", "cup", "cup", "cup", "cup", "cup"] [0, 2, 3, 4, 5, 6, 1, 4, 3, 2, 1, 0],
  mkSp ["cap", "cap", "cap", "cap", "cap", "counit", "unit", "cup", "cup", "cup", "cup", "cup"] [0, 2, 3, 4, 5, 1, 5, 4, 3, 2, 1, 0],
  mkSp ["cap", "cap", "cap", "cap", "counit", "cap", "unit", "cup", "cup", "cup", "cup", "cup"] [0, 2, 3, 4, 1, 4, 5, 4, 3, 2, 1, 0],
  mkSp ["cap", "cap", "cap", "counit", "cap", "cap", "unit", "cup", "cup", "cup", "cup", "cup"] [0, 2, 3, 1, 3, 4, 5, 4, 3, 2, 1, 0],
  mkSp ["cap", "cap", "counit", "cap", "cap", "cap", "unit", "cup", "cup", "cup", "cup", "cup"] [0, 2, 1, 2, 3, 4, 5, 4, 3, 2, 1, 0],
  mkSp ["cap", "counit", "cap", "cap", "cap", "cap", "unit", "cup", "cup", "cup", "cup", "cup"] [0, 1, 1, 2, 3, 4, 5, 4, 3, 2, 1, 0],
  mkSp ["cap", "cap", "counit", "cap", "cap", "cap", "unit", "cup", "cup", "cup", "cup", "cup"] [0, 1, 3, 2, 3, 4, 5, 4, 3, 2, 1, 0],
  mkSp ["cap", "cap", "cap", "counit", "cap", "cap", "unit", "cup", "cup", "cup", "cup", "cup"] [0, 1, 2, 5, 3, 4, 5, 4, 3, 2, 1, 0],
  mkSp ["cap", "cap", "cap", "cap", "counit", "cap", "unit", "cup", "cup", "cup", "cup", "cup"] [0, 1, 2, 3, 7, 4, 5, 4, 3, 2, 1, 0],
  mkSp ["cap", "cap", "cap", "cap", "cap", "counit", "unit", "cup", "cup", "cup", "cup", "cup"] [0, 1, 2, 3, 4, 9, 5, 4, 3, 2, 1, 0],
  mkSp ["cap", "cap", "cap", "cap", "cap", "unit", "counit", "cup", "cup", "cup", "cup", "cup"] [0, 1, 2, 3, 4, 5, 10, 4, 3, 2, 1, 0],
  mkSp ["cap", "cap", "cap", "cap", "cap", "unit", "cup", "counit", "cup", "cup", "cup", "cup"] [0, 1, 2, 3, 4, 5, 4, 8, 3, 2, 1, 0],
  mkSp ["cap", "cap", "cap", "cap", "cap", "unit", "cup", "cup", "counit", "cup", "cup", "cup"] [0, 1, 2, 3, 4, 5, 4, 3, 6, 2, 1, 0],
  mkSp ["cap", "cap", "cap", "cap", "cap", "unit", "cup", "cup", "cup", "counit", "cup", "cup"] [0, 1, 2, 3, 4, 5, 4, 3, 2, 4, 1, 0],
  mkSp ["cap", "cap", "cap", "cap", "cap", "unit", "cup", "cup", "cup", "cup", "counit", "cup"] [0, 1, 2, 3, 4, 5, 4, 3, 2, 1, 2, 0],
  mkSp ["cap", "cap", "cap", "cap", "cap", "unit", "cup", "cup", "cup", "cup", "cup", "counit"] [0, 1, 2, 3, 4, 5, 4, 3, 2, 1, 0, 0]]

/-! ## Helper lemmas -/

theorem box_dagger_dagger (b : Box) : b.dagger.dagger = b := by
  cases b; simp [Box.dagger]

theorem interchange_adj (d : Diagram) (i : Nat) (left : Bool)
    (h : i + 1 < d.boxes.length) :
    d.interchange (i : Int) ((i : Int) + 1) left = interCore d i left := by
  unfold Diagram.interchange
  rw [if_pos, if_neg, if_neg, if_neg]
  · have hmin : min (i : Int) ((i : Int) + 1) = (i : Int) := min_eq_left (by omega)
    rw [hmin, Int.toNat_natCast]
  · omega
  · omega
  · omega
  · refine ⟨by omega, by omega, by omega, by omega⟩

/-! ## Claims -/

/-- C7: `tensor(f, g)` has domain `f.dom @ g.dom` and codomain
`f.cod @ g.cod`, its box sequence is `f.boxes` followed by `g.boxes`, and
its offsets are `f`'s unchanged followed by `g`'s shifted right by
`len(f.cod)`. -/
theorem C7_tensor_shape (f g : Diagram) :
    (f.tensor g).dom = f.dom ++ g.dom ∧
    (f.tensor g).cod = f.cod ++ g.cod ∧
    (f.tensor g).boxes = f.boxes ++ g.boxes ∧
    (f.tensor g).offsets
      = f.offsets ++ g.offsets.map (fun n => n + f.cod.length) :=
  ⟨rfl, rfl, rfl, rfl⟩

/-- C9: `dagger(dagger(f)) == f` for every diagram, under the syntactic
diagram equality. -/
theorem C9_dagger_involutive (f : Diagram) : f.dagger.dagger = f := by
  cases f with
  | mk dm cd bs os =>
    simp [Diagram.dagger, List.map_reverse, List.map_map, Function.comp_def,
      box_dagger_dagger]

/-- C10: when an index passed to `interchange` lies outside
`0 <= index < len(d.boxes)`, the result is the index error naming the
expected range, and never an axiom or interchanger error. -/
theorem C10_interchange_index_error (d : Diagram) (i j : Int) (left : Bool)
    (h : ¬ (0 ≤ i ∧ i < (d.boxes.length : Int) ∧
            0 ≤ j ∧ j < (d.boxes.length : Int))) :
    d.interchange i j left = .error (.indexError d.boxes.length i j) ∧
    ∀ e : AxiomError, d.interchange i j left ≠ .error (.ax e) := by
  unfold Diagram.interchange
  rw [if_neg h]
  exact ⟨rfl, fun e hc => by simp at hc⟩

theorem C10_interchange_index_error_witness :
    (Box.toDiagram ⟨"f", ["x"], ["y"], false⟩).interchange 5 0 false
      = .error (.indexError 1 5 0) :=
  (C10_interchange_index_error (Box.toDiagram ⟨"f", ["x"], ["y"], false⟩)
    5 0 false (by decide)).1

/-- C1: on adjacent positions `i` and `j = i + 1`, `interchange` with the
default `left = false` swaps the two entries when one of the two
disjointness tests holds, adjusting the offsets as follows: when
`off0 >= off1 + len(box1.dom)`, `off0` becomes
`off0 - len(box1.dom) + len(box1.cod)`; otherwise, when
`off1 >= off0 + len(box0.cod)`, `off1` becomes
`off1 - len(box0.cod) + len(box0.dom)`; `dom` and `cod` are unchanged. -/
theorem C1_interchange_adjacent (d : Diagram) (i : Nat)
    (h : i + 1 < d.boxes.length) :
    (d.offAt (i + 1) + (d.boxAt (i + 1)).dom.length ≤ d.offAt i →
      d.interchange (i : Int) ((i : Int) + 1) false = .ok
        ⟨d.dom, d.cod,
         d.boxes.take i ++ [d.boxAt (i + 1), d.boxAt i] ++ d.boxes.drop (i + 2),
         d.offsets.take i
           ++ [d.offAt (i + 1),
               d.offAt i - (d.boxAt (i + 1)).dom.length + (d.boxAt (i + 1)).cod.length]
           ++ d.offsets.drop (i + 2)⟩) ∧
    (¬ (d.offAt (i + 1) + (d.boxAt (i + 1)).dom.length ≤ d.offAt i) →
     d.offAt i + (d.boxAt i).cod.length ≤ d.offAt (i + 1) →
      d.interchange (i : Int) ((i : Int) + 1) false = .ok
        ⟨d.dom, d.cod,
         d.boxes.take i ++ [d.boxAt (i + 1), d.boxAt i] ++ d.boxes.drop (i + 2),
         d.offsets.take i
           ++ [d.offAt (i + 1) - (d.boxAt i).cod.length + (d.boxAt i).dom.length,
               d.offAt i]
           ++ d.offsets.drop (i + 2)⟩) := by
  rw [interchange_adj d i false h]
  unfold interCore
  constructor
  · intro hR
    rw [if_neg (by simp), if_pos hR]
  · intro hnR hL
    rw [if_neg (by simp), if_neg hnR, if_pos hL]

theorem C1_interchange_adjacent_witness :
    (Diagram.mk ["x", "z"] ["y", "w"]
        [⟨"f0", ["x"], ["y"], false⟩, ⟨"f1", ["z"], ["w"], false⟩]
        [0, 1]).interchange ((0 : Nat) : Int) (((0 : Nat) : Int) + 1) false
      = .ok ⟨["x", "z"], ["y", "w"],
          [⟨"f1", ["z"], ["w"], false⟩, ⟨"f0", ["x"], ["y"], false⟩], [1, 0]⟩ :=
  ((C1_interchange_adjacent
    (Diagram.mk ["x", "z"] ["y", "w"]
      [⟨"f0", ["x"], ["y"], false⟩, ⟨"f1", ["z"], ["w"], false⟩]
      [0, 1]) 0 (by decide)).2 (by decide) (by decide)).trans (by decide)

/-- C5: when neither disjointness condition holds on an adjacent pair, the
interchange raises the interchanger error (a constructor of the axiom
error type) naming both boxes, for either value of the `left` flag. -/
theorem C5_interchanger_error (d : Diagram) (i : Nat) (left : Bool)
    (h : i + 1 < d.boxes.length)
    (h1 : ¬ (d.offAt (i + 1) + (d.boxAt (i + 1)).dom.length ≤ d.offAt i))
    (h2 : ¬ (d.offAt i + (d.boxAt i).cod.length ≤ d.offAt (i + 1))) :
    d.interchange (i : Int) ((i : Int) + 1) left
      = .error (.ax (.interchanger (d.boxAt i) (d.boxAt (i + 1)))) := by
  rw [interchange_adj d i left h]
  unfold interCore
  rw [if_neg (by exact fun hc => h2 hc.2), if_neg h1, if_neg h2]

theorem C5_interchanger_error_witness :
    (Box.toDiagram ⟨"f", ["x"], ["y"], false⟩).thenD
        (Box.toDiagram ⟨"g", ["y"], ["z"], false⟩)
      = .ok ⟨["x"], ["z"],
          [⟨"f", ["x"], ["y"], false⟩, ⟨"g", ["y"], ["z"], false⟩], [0, 0]⟩ ∧
    (Diagram.mk ["x"] ["z"]
        [⟨"f", ["x"], ["y"], false⟩, ⟨"g", ["y"], ["z"], false⟩]
        [0, 0]).interchange ((0 : Nat) : Int) (((0 : Nat) : Int) + 1) false
      = .error (.ax (.interchanger ⟨"f", ["x"], ["y"], false⟩
          ⟨"g", ["y"], ["z"], false⟩)) := by
  refine ⟨by decide, ?_⟩
  exact (C5_interchanger_error
    (Diagram.mk ["x"] ["z"]
      [⟨"f", ["x"], ["y"], false⟩, ⟨"g", ["y"], ["z"], false⟩] [0, 0])
    0 false (by decide) (by decide) (by decide)).trans (by decide)

theorem checkBoxes_eq_scanList (l : List (Box × Nat)) :
    ∀ s t, checkBoxes s l = .ok t ↔ scanList s l = some t := by
  induction l with
  | nil => intro s t; simp [checkBoxes, scanList]
  | cons p rest ih =>
    intro s t
    obtain ⟨b, o⟩ := p
    by_cases hc : (s.drop o).take b.dom.length = b.dom
    · simp [checkBoxes, scanList, scanStep, hc, ih]
    · simp [checkBoxes, scanList, scanStep, hc]

theorem checkBoxes_append_error (b : Box) (o : Nat) (l2 : List (Box × Nat)) :
    ∀ (l1 : List (Box × Nat)) (s m : Ty), scanList s l1 = some m →
      (m.drop o).take b.dom.length ≠ b.dom →
      checkBoxes s (l1 ++ (b, o) :: l2)
        = .error (.ax (.domainMismatch ((m.drop o).take b.dom.length) b.dom)) := by
  intro l1
  induction l1 with
  | nil =>
    intro s m h hm
    simp only [scanList, Option.some.injEq] at h
    subst h
    simp [checkBoxes, hm]
  | cons p rest ih =>
    intro s m h hm
    obtain ⟨b', o'⟩ := p
    simp only [scanList] at h
    cases hs : scanStep s b' o' with
    | none => rw [hs] at h; simp at h
    | some t =>
      rw [hs] at h
      have hc : (s.drop o').take b'.dom.length = b'.dom := by
        by_contra hc
        simp [scanStep, hc] at hs
      have ht : s.take o' ++ b'.cod ++ s.drop (o' + b'.dom.length) = t := by
        simpa [scanStep, hc] using hs
      simp only [List.cons_append, checkBoxes]
      rw [if_pos hc, ht]
      exact ih t m h hm

/-- C4: the validating constructor simulates the scan type over the
(box, offset) pairs: it succeeds exactly when the simulation lands on
`cod`; at the first position where a box's domain does not match the
scanned slice it raises the axiom error reporting the scanned slice as
expected and the box domain as got; and when the final scan type differs
from `cod` it raises the axiom error reporting `cod` versus the scan. -/
theorem C4_init_validation (dom cod : Ty) (boxes : List Box)
    (offsets : List Nat) :
    (mkDiagram dom cod boxes offsets = .ok ⟨dom, cod, boxes, offsets⟩ ↔
      boxes.length = offsets.length ∧
      scanList dom (boxes.zip offsets) = some cod) ∧
    (∀ l1 b o l2 m, boxes.length = offsets.length →
      boxes.zip offsets = l1 ++ (b, o) :: l2 →
      scanList dom l1 = some m →
      (m.drop o).take b.dom.length ≠ b.dom →
      mkDiagram dom cod boxes offsets
        = .error (.ax (.domainMismatch ((m.drop o).take b.dom.length) b.dom))) ∧
    (∀ m, boxes.length = offsets.length →
      scanList dom (boxes.zip offsets) = some m → m ≠ cod →
      mkDiagram dom cod boxes offsets
        = .error (.ax (.codomainMismatch cod m))) := by
  refine ⟨?_, ?_, ?_⟩
  · by_cases hlen : boxes.length = offsets.length
    · unfold mkDiagram
      rw [if_pos hlen]
      cases hcb : checkBoxes dom (boxes.zip offsets) with
      | error e =>
        simp only [hlen, true_and]
        constructor
        · intro h; simp at h
        · intro h
          rw [← checkBoxes_eq_scanList] at h
          rw [h] at hcb
          simp at hcb
      | ok scan =>
        by_cases hsc : scan = cod
        · subst hsc
          simp only [if_pos rfl, hlen, true_and]
          rw [← checkBoxes_eq_scanList, hcb]
          simp
        · dsimp only
          rw [if_neg hsc]
          simp only [hlen, true_and]
          constructor
          · intro h; simp at h
          · intro h
            rw [← checkBoxes_eq_scanList] at h
            rw [h] at hcb
            simp only [Except.ok.injEq] at hcb
            exact absurd hcb.symm hsc
    · constructor
      · intro h
        unfold mkDiagram at h
        rw [if_neg hlen] at h
        simp at h
      · intro h
        exact absurd h.1 hlen
  · intro l1 b o l2 m hlen hz h hm
    unfold mkDiagram
    rw [if_pos hlen, hz, checkBoxes_append_error b o l2 l1 dom m h hm]
  · intro m hlen h hne
    unfold mkDiagram
    rw [if_pos hlen]
    rw [← checkBoxes_eq_scanList] at h
    rw [h]
    dsimp only
    rw [if_neg (fun hc => hne hc)]

theorem C4_init_validation_witness :
    mkDiagram ["y"] ["y"] [⟨"f", ["x"], ["y"], false⟩] [0]
      = .error (.ax (.domainMismatch ["y"] ["x"])) :=
  ((C4_init_validation ["y"] ["y"] [⟨"f", ["x"], ["y"], false⟩] [0]).2.1
    [] ⟨"f", ["x"], ["y"], false⟩ 0 [] ["y"]
    (by decide) (by decide) (by decide) (by decide)).trans (by decide)

theorem normalFormAux_notConnected (left : Bool) :
    ∀ (n : Nat) (cur : Diagram) (cache : List Diagram),
      normalFormAux left n cur cache = .error .notConnected ↔
      ¬ ((normalizeList left n cur).Nodup ∧
         ∀ x ∈ normalizeList left n cur, x ∉ cache) := by
  intro n
  induction n with
  | zero => intro cur cache; simp [normalFormAux, normalizeList]
  | succ n ih =>
    intro cur cache
    by_cases hfix : normStep left cur = cur
    · simp [normalFormAux, normalizeList, hfix]
    · by_cases hmem : normStep left cur ∈ cache
      · simp [normalFormAux, normalizeList, hfix, hmem, List.nodup_cons]
      · have hstep : normalFormAux left (n + 1) cur cache
            = normalFormAux left n (normStep left cur)
                (normStep left cur :: cache) := by
          simp [normalFormAux, hfix, hmem]
        rw [hstep, ih]
        have hinner :
            ((normalizeList left n (normStep left cur)).Nodup ∧
              ∀ x ∈ normalizeList left n (normStep left cur),
                x ∉ normStep left cur :: cache) ↔
            ((normStep left cur :: normalizeList left n (normStep left cur)).Nodup ∧
              ∀ x ∈ normStep left cur :: normalizeList left n (normStep left cur),
                x ∉ cache) := by
          constructor
          · rintro ⟨hnd, hall⟩
            have hnin : normStep left cur ∉ normalizeList left n (normStep left cur) := by
              intro hin
              exact (hall _ hin) (List.mem_cons_self _ _)
            refine ⟨List.nodup_cons.mpr ⟨hnin, hnd⟩, ?_⟩
            intro x hx
            rcases List.mem_cons.mp hx with h1 | h2
            · subst h1; exact hmem
            · intro hc
              exact (hall _ h2) (List.mem_cons.mpr (Or.inr hc))
          · rintro ⟨hnd, hall⟩
            obtain ⟨hnin, hnd'⟩ := List.nodup_cons.mp hnd
            refine ⟨hnd', ?_⟩
            intro x hx hc
            rcases List.mem_cons.mp hc with h1 | h2
            · subst h1; exact hnin hx
            · exact (hall _ (List.mem_cons.mpr (Or.inr hx))) h2
        rw [not_congr hinner]
        simp [normalizeList, hfix]

theorem normalFormAux_ok (left : Bool) :
    ∀ (n : Nat) (cur : Diagram) (cache : List Diagram) (r : Diagram),
      normalFormAux left n cur cache = .ok r →
      r = (normalizeList left n cur).getLastD cur ∧ normStep left r = r := by
  intro n
  induction n with
  | zero => intro cur cache r h; simp [normalFormAux] at h
  | succ n ih =>
    intro cur cache r h
    by_cases hfix : normStep left cur = cur
    · simp [normalFormAux, hfix] at h
      subst h
      exact ⟨by simp [normalizeList, hfix], hfix⟩
    · by_cases hmem : normStep left cur ∈ cache
      · simp [normalFormAux, hfix, hmem] at h
      · have hstep : normalFormAux left (n + 1) cur cache
            = normalFormAux left n (normStep left cur)
                (normStep left cur :: cache) := by
          simp [normalFormAux, hfix, hmem]
        rw [hstep] at h
        obtain ⟨h1, h2⟩ := ih (normStep left cur) (normStep left cur :: cache) r h
        refine ⟨?_, h2⟩
        rw [h1]
        have hl : normalizeList left (n + 1) cur
            = normStep left cur :: normalizeList left n (normStep left cur) := by
          simp [normalizeList, hfix]
        rw [hl, List.getLastD_cons]

/-- C2: `normal_form` consumes the `normalize` sequence recording every
intermediate diagram; it reports the not-connected condition exactly when
a yielded diagram recurs; when it returns a diagram, that diagram is the
last one yielded (or the input when the sequence was immediately empty)
and is a fixpoint of the rewriting pass. -/
theorem C2_normal_form (left : Bool) (fuel : Nat) (d : Diagram) :
    (normal_form left fuel d = .error .notConnected ↔
      ¬ (normalizeList left fuel d).Nodup) ∧
    (∀ r, normal_form left fuel d = .ok r →
      r = (normalizeList left fuel d).getLastD d ∧ normStep left r = r) ∧
    (0 < fuel → normStep left d = d → normal_form left fuel d = .ok d) := by
  refine ⟨?_, ?_, ?_⟩
  · rw [normal_form, normalFormAux_notConnected]
    simp
  · intro r h
    exact normalFormAux_ok left fuel d [] r h
  · intro hf hfix
    cases fuel with
    | zero => omega
    | succ n => simp [normal_form, normalFormAux, hfix]

theorem C2_normal_form_witness :
    normal_form false 5
        ⟨[], [], [⟨"s0", [], [], false⟩, ⟨"s1", [], [], false⟩], [0, 0]⟩
      = .error .notConnected :=
  (C2_normal_form false 5
      ⟨[], [], [⟨"s0", [], [], false⟩, ⟨"s1", [], [], false⟩], [0, 0]⟩).1.mpr
    (by decide)

theorem dirTest_interchange_ok (left : Bool) (d : Diagram) (i : Nat)
    (h : i + 1 < d.boxes.length) (ht : dirTest left d i = true) :
    ∃ r, d.interchange (i : Int) ((i : Int) + 1) left = .ok r := by
  rw [interchange_adj d i left h]
  unfold interCore
  unfold dirTest at ht
  cases left with
  | true =>
    simp only [Bool.true_and, Bool.not_true, Bool.false_and, Bool.or_false,
      decide_eq_true_eq] at ht
    rw [if_pos ⟨rfl, ht⟩]
    exact ⟨_, rfl⟩
  | false =>
    simp only [Bool.false_and, Bool.not_false, Bool.true_and, Bool.false_or,
      decide_eq_true_eq] at ht
    rw [if_neg (by simp), if_pos ht]
    exact ⟨_, rfl⟩

theorem normScanFrom_none (left : Bool) (d : Diagram) :
    ∀ l : List Nat, (∀ i ∈ l, dirTest left d i = false) →
      normScanFrom left d l = none := by
  intro l
  induction l with
  | nil => intro _; rfl
  | cons a l ih =>
    intro h
    have ha := h a (List.mem_cons_self a l)
    simp only [normScanFrom, ha, Bool.false_eq_true, if_false]
    exact ih fun i hi => h i (List.mem_cons_of_mem a hi)

theorem normScanFrom_append_none (left : Bool) (d : Diagram) (l2 : List Nat) :
    ∀ l1 : List Nat, (∀ i ∈ l1, dirTest left d i = false) →
      normScanFrom left d (l1 ++ l2) = normScanFrom left d l2 := by
  intro l1
  induction l1 with
  | nil => intro _; rfl
  | cons a l ih =>
    intro h
    have ha := h a (List.mem_cons_self a l)
    simp only [List.cons_append, normScanFrom, ha, Bool.false_eq_true, if_false]
    exact ih fun i hi => h i (List.mem_cons_of_mem a hi)

theorem normStep_eq_of_first (left : Bool) (d : Diagram) (i : Nat) (r : Diagram)
    (h : i + 1 < d.boxes.length) (ht : dirTest left d i = true)
    (hfirst : ∀ k, k < i → dirTest left d k = false)
    (hok : d.interchange (i : Int) ((i : Int) + 1) left = .ok r) :
    normStep left d = r := by
  unfold normStep
  obtain ⟨m, hm⟩ : ∃ m, d.boxes.length - 1 = i + (m + 1) :=
    ⟨d.boxes.length - 1 - i - 1, by omega⟩
  rw [hm, List.range_add,
    normScanFrom_append_none left d _ _
      (fun k hk => hfirst k (List.mem_range.mp hk)),
    List.range_succ_eq_map]
  simp only [List.map_cons, Nat.add_zero]
  simp only [normScanFrom, ht, if_true]
  rw [hok]
  rfl

/-- C3: each rewriting pass scans adjacent pairs left to right; if no pair
satisfies the directional test the pass returns its input (and the yielded
sequence is empty); at the first pair satisfying the test the attempted
interchange succeeds and its result is the pass result; a pass that
changes the diagram is yielded and the scan restarts from it. -/
theorem C3_normalize_scan (left : Bool) (d : Diagram) :
    ((∀ i, i + 1 < d.boxes.length → dirTest left d i = false) →
      normStep left d = d) ∧
    (∀ i, i + 1 < d.boxes.length → dirTest left d i = true →
      (∀ k, k < i → dirTest left d k = false) →
      ∃ r, d.interchange (i : Int) ((i : Int) + 1) left = .ok r ∧
        normStep left d = r) ∧
    (∀ fuel, normStep left d ≠ d →
      normalizeList left (fuel + 1) d
        = normStep left d :: normalizeList left fuel (normStep left d)) ∧
    (normStep left d = d → ∀ fuel, normalizeList left fuel d = []) := by
  refine ⟨?_, ?_, ?_, ?_⟩
  · intro h
    unfold normStep
    rw [normScanFrom_none left d _
      (fun i hi => h i (by have := List.mem_range.mp hi; omega))]
    rfl
  · intro i hi ht hfirst
    obtain ⟨r, hr⟩ := dirTest_interchange_ok left d i hi ht
    exact ⟨r, hr, normStep_eq_of_first left d i r hi ht hfirst hr⟩
  · intro fuel hne
    simp [normalizeList, hne]
  · intro hfix fuel
    cases fuel with
    | zero => rfl
    | succ n => simp [normalizeList, hfix]

theorem C3_normalize_scan_witness :
    normStep false
        ⟨["x", "z"], ["y", "w"],
         [⟨"f1", ["z"], ["w"], false⟩, ⟨"f0", ["x"], ["y"], false⟩], [1, 0]⟩
      = ⟨["x", "z"], ["y", "w"],
         [⟨"f0", ["x"], ["y"], false⟩, ⟨"f1", ["z"], ["w"], false⟩], [0, 1]⟩ := by
  obtain ⟨r, hok, hstep⟩ :=
    (C3_normalize_scan false
      ⟨["x", "z"], ["y", "w"],
       [⟨"f1", ["z"], ["w"], false⟩, ⟨"f0", ["x"], ["y"], false⟩], [1, 0]⟩).2.1
      0 (by decide) (by decide) (fun k hk => absurd hk (Nat.not_lt_zero k))
  have h2 := hok.symm.trans
    (by decide :
      (Diagram.mk ["x", "z"] ["y", "w"]
        [⟨"f1", ["z"], ["w"], false⟩, ⟨"f0", ["x"], ["y"], false⟩]
        [1, 0]).interchange ((0 : Nat) : Int) (((0 : Nat) : Int) + 1) false
      = .ok ⟨["x", "z"], ["y", "w"],
          [⟨"f0", ["x"], ["y"], false⟩, ⟨"f1", ["z"], ["w"], false⟩], [0, 1]⟩)
  injection h2 with hr
  rw [← hr]
  exact hstep

theorem normalFormAux_of_traj (left : Bool) :
    ∀ (l cache : List Diagram) (cur : Diagram) (fuel : Nat),
      isTrajB left cur l = true → (∀ x ∈ l, x ∉ cache) → l.Nodup →
      l.length < fuel →
      normalFormAux left fuel cur cache = .ok (l.getLastD cur) := by
  intro l
  induction l with
  | nil =>
    intro cache cur fuel htraj _ _ hfuel
    cases fuel with
    | zero => omega
    | succ n =>
      have hfix : normStep left cur = cur := by
        simpa [isTrajB] using htraj
      simp [normalFormAux, hfix, List.getLastD]
  | cons x xs ih =>
    intro cache cur fuel htraj hcache hnd hfuel
    cases fuel with
    | zero => simp at hfuel
    | succ n =>
      simp only [isTrajB, Bool.and_eq_true, beq_iff_eq, bne_iff_ne, ne_eq] at htraj
      obtain ⟨⟨hstep, hne⟩, htraj'⟩ := htraj
      have hxmem : x ∉ cache := hcache x (List.mem_cons_self x xs)
      have hred : normalFormAux left (n + 1) cur cache
          = normalFormAux left n x (x :: cache) := by
        simp only [normalFormAux]
        rw [hstep, if_neg hne, if_neg hxmem]
      rw [hred, List.getLastD_cons]
      apply ih
      · exact htraj'
      · intro y hy
        simp only [List.mem_cons, not_or]
        exact ⟨fun he => (List.nodup_cons.mp hnd).1 (he ▸ hy),
               hcache y (List.mem_cons_of_mem x hy)⟩
      · exact (List.nodup_cons.mp hnd).2
      · simpa using Nat.lt_of_succ_lt_succ hfuel

set_option maxRecDepth 10000 in
/-- C8 counterexample: the spiral of size 2 normalises successfully, but
in the resulting normal form the unit box is nowhere immediately before
the counit box, contradicting the claim at `n = 2`. -/
theorem C8_counterexample :
    spiral 2 = .ok spStart2 ∧
    normal_form false 30 spStart2 = .ok (spTraj2.getLastD spStart2) ∧
    unitImmediatelyBeforeCounit (spTraj2.getLastD spStart2) = false := by
  refine ⟨by decide, ?_, by decide⟩
  apply normalFormAux_of_traj
  · decide
  · simp
  · decide
  · decide

set_option maxRecDepth 40000 in
set_option maxHeartbeats 12000000 in
/-- C8 amended: normalising the spiral of size `n` terminates, and the
resulting normal form places the unit box at position `n` (after the `n`
caps) and the counit box last (after the `n` cups), for `n = 2` and
`n = 5`; the unit and counit boxes are not adjacent in it. -/
theorem C8_spiral_normal_form :
    (spiral 2 = .ok spStart2 ∧
     normal_form false 30 spStart2 = .ok (spTraj2.getLastD spStart2) ∧
     (spTraj2.getLastD spStart2).boxes.getD 2 Box.null = unitBox ∧
     (spTraj2.getLastD spStart2).boxes.getD 5 Box.null = counitBox ∧
     (spTraj2.getLastD spStart2).boxes.length = 6) ∧
    (spiral 5 = .ok spStart5 ∧
     normal_form false 250 spStart5 = .ok (spTraj5.getLastD spStart5) ∧
     (spTraj5.getLastD spStart5).boxes.getD 5 Box.null = unitBox ∧
     (spTraj5.getLastD spStart5).boxes.getD 11 Box.null = counitBox ∧
     (spTraj5.getLastD spStart5).boxes.length = 12) := by
  refine ⟨⟨by decide, ?_, by decide, by decide, by decide⟩,
          ⟨by decide, ?_, by decide, by decide, by decide⟩⟩
  · apply normalFormAux_of_traj
    · decide
    · simp
    · decide
    · decide
  · apply normalFormAux_of_traj
    · decide
    · simp
    · decide
    · decide

theorem scanStepStrict_iff (s t : Ty) (b : Box) (o : Nat) :
    scanStepStrict s b o = some t ↔
    ∃ A C : Ty, s = A ++ b.dom ++ C ∧ A.length = o ∧ t = A ++ b.cod ++ C := by
  constructor
  · intro h
    unfold scanStepStrict at h
    by_cases hc : o + b.dom.length ≤ s.length ∧
        (s.drop o).take b.dom.length = b.dom
    · obtain ⟨hle, hsl⟩ := hc
      rw [if_pos ⟨hle, hsl⟩] at h
      refine ⟨s.take o, s.drop (o + b.dom.length), ?_, ?_, ?_⟩
      · conv_lhs => rw [← List.take_append_drop o s]
        rw [List.append_assoc]
        congr 1
        conv_lhs => rw [← List.take_append_drop b.dom.length (s.drop o)]
        rw [hsl, List.drop_drop]
      · rw [List.length_take]
        omega
      · injection h with h
        rw [← h]
    · rw [if_neg hc] at h
      exact absurd h (by simp)
  · rintro ⟨A, C, hs, hA, ht⟩
    subst hs
    subst ht
    have hto : (A ++ b.dom ++ C).take o = A := by
      rw [List.append_assoc]
      exact List.take_left' hA
    have hdo : (A ++ b.dom ++ C).drop o = b.dom ++ C := by
      rw [List.append_assoc]
      exact List.drop_left' hA
    have hdn : (A ++ b.dom ++ C).drop (o + b.dom.length) = C := by
      rw [← List.drop_drop, hdo]
      exact List.drop_left' rfl
    unfold scanStepStrict
    rw [if_pos]
    · rw [hto, hdn]
    · refine ⟨by simp [List.length_append, hA], ?_⟩
      rw [hdo]
      exact List.take_left' rfl

theorem scanListStrict_append (l1 l2 : List (Box × Nat)) :
    ∀ s, scanListStrict s (l1 ++ l2)
      = (scanListStrict s l1).bind (fun t => scanListStrict t l2) := by
  induction l1 with
  | nil => intro s; simp [scanListStrict]
  | cons p rest ih =>
    intro s
    obtain ⟨b, o⟩ := p
    simp only [List.cons_append, scanListStrict]
    cases scanStepStrict s b o with
    | none => simp
    | some t => simp [ih]

theorem scanListStrict_extend_right (c : Ty) (l : List (Box × Nat)) :
    ∀ s t, scanListStrict s l = some t →
      scanListStrict (s ++ c) l = some (t ++ c) := by
  induction l with
  | nil =>
    intro s t h
    simp only [scanListStrict, Option.some.injEq] at h
    subst h
    rfl
  | cons p rest ih =>
    intro s t h
    obtain ⟨b, o⟩ := p
    simp only [scanListStrict] at h ⊢
    cases hs : scanStepStrict s b o with
    | none => rw [hs] at h; simp at h
    | some m =>
      rw [hs] at h
      obtain ⟨A, C, h1, h2, h3⟩ := (scanStepStrict_iff s m b o).mp hs
      have : scanStepStrict (s ++ c) b o = some (m ++ c) := by
        rw [scanStepStrict_iff]
        exact ⟨A, C ++ c, by simp [h1], h2, by simp [h3]⟩
      rw [this]
      exact ih m t h

theorem scanListStrict_extend_left (c : Ty) (l : List (Box × Nat)) :
    ∀ s t, scanListStrict s l = some t →
      scanListStrict (c ++ s) (l.map (fun p => (p.1, p.2 + c.length)))
        = some (c ++ t) := by
  induction l with
  | nil =>
    intro s t h
    simp only [scanListStrict, Option.some.injEq] at h
    subst h
    rfl
  | cons p rest ih =>
    intro s t h
    obtain ⟨b, o⟩ := p
    simp only [scanListStrict, List.map_cons] at h ⊢
    cases hs : scanStepStrict s b o with
    | none => rw [hs] at h; simp at h
    | some m =>
      rw [hs] at h
      obtain ⟨A, C, h1, h2, h3⟩ := (scanStepStrict_iff s m b o).mp hs
      have : scanStepStrict (c ++ s) b (o + c.length) = some (c ++ m) := by
        rw [scanStepStrict_iff]
        exact ⟨c ++ A, C, by simp [h1], by simp [h2, Nat.add_comm], by simp [h3]⟩
      rw [this]
      exact ih m t h

theorem scanStepStrict_dagger (s t : Ty) (b : Box) (o : Nat)
    (h : scanStepStrict s b o = some t) :
    scanStepStrict t b.dagger o = some s := by
  obtain ⟨A, C, h1, h2, h3⟩ := (scanStepStrict_iff s t b o).mp h
  rw [scanStepStrict_iff]
  exact ⟨A, C, h3, h2, h1⟩

theorem scanListStrict_dagger (l : List (Box × Nat)) :
    ∀ s t, scanListStrict s l = some t →
      scanListStrict t ((l.map (fun p => (Box.dagger p.1, p.2))).reverse)
        = some s := by
  induction l with
  | nil =>
    intro s t h
    simp only [scanListStrict, Option.some.injEq] at h
    subst h
    rfl
  | cons p rest ih =>
    intro s t h
    obtain ⟨b, o⟩ := p
    simp only [scanListStrict] at h
    cases hs : scanStepStrict s b o with
    | none => rw [hs] at h; simp at h
    | some m =>
      rw [hs] at h
      simp only [List.map_cons, List.reverse_cons]
      rw [scanListStrict_append]
      rw [ih m t h]
      simp only [Option.some_bind]
      simp only [scanListStrict]
      rw [scanStepStrict_dagger s m b o hs]

theorem scanStep_of_strict (s t : Ty) (b : Box) (o : Nat)
    (h : scanStepStrict s b o = some t) : scanStep s b o = some t := by
  unfold scanStepStrict at h
  unfold scanStep
  by_cases hc : o + b.dom.length ≤ s.length ∧
      (s.drop o).take b.dom.length = b.dom
  · rw [if_pos hc] at h
    rw [if_pos hc.2]
    exact h
  · rw [if_neg hc] at h
    exact absurd h (by simp)

theorem scanList_of_strict (l : List (Box × Nat)) :
    ∀ s t, scanListStrict s l = some t → scanList s l = some t := by
  induction l with
  | nil => intro s t h; exact h
  | cons p rest ih =>
    intro s t h
    obtain ⟨b, o⟩ := p
    simp only [scanListStrict] at h
    simp only [scanList]
    cases hs : scanStepStrict s b o with
    | none => rw [hs] at h; simp at h
    | some m =>
      rw [hs] at h
      rw [scanStep_of_strict s m b o hs]
      exact ih m t h

theorem zipReverse (l2 : List Nat) :
    ∀ l1 : List Box, l1.length = l2.length →
      l1.reverse.zip l2.reverse = (l1.zip l2).reverse := by
  induction l2 with
  | nil =>
    intro l1 h
    rw [List.length_nil] at h
    rw [List.eq_nil_of_length_eq_zero h]
    rfl
  | cons b l2 ih =>
    intro l1 h
    cases l1 with
    | nil => simp at h
    | cons a l1 =>
      simp only [List.length_cons, Nat.succ.injEq] at h
      simp only [List.reverse_cons]
      rw [List.zip_append (by simp [h]), ih l1 h]
      simp [List.zip]

theorem swap_steps_right (s u t : Ty) (b0 b1 : Box) (o0 o1 : Nat)
    (h0 : scanStepStrict s b0 o0 = some u)
    (h1 : scanStepStrict u b1 o1 = some t)
    (hcond : o1 + b1.dom.length ≤ o0) :
    ∃ v, scanStepStrict s b1 o1 = some v ∧
      scanStepStrict v b0 (o0 - b1.dom.length + b1.cod.length) = some t := by
  obtain ⟨A, C, hsA, hA, huA⟩ := (scanStepStrict_iff s u b0 o0).mp h0
  obtain ⟨A', C', huA', hA', htA'⟩ := (scanStepStrict_iff u t b1 o1).mp h1
  obtain ⟨E, hAeq⟩ : ∃ E, A = A' ++ b1.dom ++ E := by
    refine ⟨A.drop (o1 + b1.dom.length), ?_⟩
    have e1 : u.take (o1 + b1.dom.length) = A.take (o1 + b1.dom.length) := by
      rw [huA, List.append_assoc, List.take_append_eq_append_take]
      have hz : o1 + b1.dom.length - A.length = 0 := by omega
      rw [hz]
      simp
    have e2 : u.take (o1 + b1.dom.length) = A' ++ b1.dom := by
      rw [huA']
      exact List.take_left' (by simp [hA'])
    conv_lhs => rw [← List.take_append_drop (o1 + b1.dom.length) A]
    rw [← e1, e2]
  have hElen : A.length = o1 + b1.dom.length + E.length := by
    rw [hAeq]
    simp only [List.length_append, hA']
  have hC' : C' = E ++ b0.cod ++ C := by
    have hcc : (A' ++ b1.dom) ++ C' = (A' ++ b1.dom) ++ (E ++ b0.cod ++ C) := by
      calc (A' ++ b1.dom) ++ C' = u := by rw [huA']
      _ = A ++ b0.cod ++ C := huA
      _ = (A' ++ b1.dom) ++ (E ++ b0.cod ++ C) := by
          rw [hAeq]; simp [List.append_assoc]
    exact List.append_cancel_left hcc
  refine ⟨A' ++ b1.cod ++ (E ++ b0.dom ++ C), ?_, ?_⟩
  · rw [scanStepStrict_iff]
    refine ⟨A', E ++ b0.dom ++ C, ?_, hA', rfl⟩
    rw [hsA, hAeq]
    simp [List.append_assoc]
  · rw [scanStepStrict_iff]
    refine ⟨A' ++ b1.cod ++ E, C, ?_, ?_, ?_⟩
    · simp [List.append_assoc]
    · simp only [List.length_append, hA']
      omega
    · rw [htA', hC']
      simp [List.append_assoc]

theorem swap_steps_left (s u t : Ty) (b0 b1 : Box) (o0 o1 : Nat)
    (h0 : scanStepStrict s b0 o0 = some u)
    (h1 : scanStepStrict u b1 o1 = some t)
    (hcond : o0 + b0.cod.length ≤ o1) :
    ∃ v, scanStepStrict s b1 (o1 - b0.cod.length + b0.dom.length) = some v ∧
      scanStepStrict v b0 o0 = some t := by
  obtain ⟨A, C, hsA, hA, huA⟩ := (scanStepStrict_iff s u b0 o0).mp h0
  obtain ⟨A', C', huA', hA', htA'⟩ := (scanStepStrict_iff u t b1 o1).mp h1
  obtain ⟨F, hF⟩ : ∃ F, A' = A ++ b0.cod ++ F := by
    refine ⟨A'.drop (o0 + b0.cod.length), ?_⟩
    have e1 : u.take (o0 + b0.cod.length) = A ++ b0.cod := by
      rw [huA]
      exact List.take_left' (by simp [hA])
    have e2 : u.take (o0 + b0.cod.length) = A'.take (o0 + b0.cod.length) := by
      rw [huA', List.append_assoc, List.take_append_eq_append_take]
      have hz : o0 + b0.cod.length - A'.length = 0 := by omega
      rw [hz]
      simp
    conv_lhs => rw [← List.take_append_drop (o0 + b0.cod.length) A']
    rw [← e2, e1]
  have hFlen : A'.length = A.length + b0.cod.length + F.length := by
    rw [hF]
    simp only [List.length_append]
  have hC : C = F ++ b1.dom ++ C' := by
    have hcc : (A ++ b0.cod) ++ C = (A ++ b0.cod) ++ (F ++ b1.dom ++ C') := by
      calc (A ++ b0.cod) ++ C = u := by rw [huA]
      _ = (A ++ b0.cod) ++ (F ++ b1.dom ++ C') := by
          rw [huA', hF]; simp [List.append_assoc]
    exact List.append_cancel_left hcc
  refine ⟨(A ++ b0.dom ++ F) ++ b1.cod ++ C', ?_, ?_⟩
  · rw [scanStepStrict_iff]
    refine ⟨A ++ b0.dom ++ F, C', ?_, ?_, rfl⟩
    · rw [hsA, hC]
      simp [List.append_assoc]
    · simp only [List.length_append, hA]
      omega
  · rw [scanStepStrict_iff]
    refine ⟨A, F ++ b1.cod ++ C', by simp [List.append_assoc], hA, ?_⟩
    rw [htA', hF]
    simp [List.append_assoc]

theorem list_decomp {α : Type} (l : List α) (i : Nat) (dflt : α)
    (h : i + 1 < l.length) :
    l = l.take i ++ l.getD i dflt :: l.getD (i + 1) dflt :: l.drop (i + 2) := by
  conv_lhs => rw [← List.take_append_drop i l]
  congr 1
  rw [List.drop_eq_getElem_cons (by omega), List.getD_eq_getElem l dflt (by omega)]
  congr 1
  rw [List.drop_eq_getElem_cons (by omega), List.getD_eq_getElem l dflt h]

theorem scanListStrict_cons (b : Box) (o : Nat) (rest : List (Box × Nat))
    (s : Ty) :
    scanListStrict s ((b, o) :: rest)
      = (scanStepStrict s b o).bind (fun m => scanListStrict m rest) := by
  simp only [scanListStrict]
  cases scanStepStrict s b o <;> rfl

theorem interCore_wfS (d : Diagram) (i : Nat) (left : Bool) (r : Diagram)
    (h : i + 1 < d.boxes.length) (hwf : wellFormedStrict d)
    (hok : interCore d i left = .ok r) : wellFormedStrict r := by
  obtain ⟨hlen, hscan⟩ := hwf
  have hio : i + 1 < d.offsets.length := hlen ▸ h
  have hb := list_decomp d.boxes i Box.null h
  have ho := list_decomp d.offsets i 0 hio
  have htl : (d.boxes.take i).length = (d.offsets.take i).length := by
    simp only [List.length_take]
    omega
  have hzip : d.boxes.zip d.offsets
      = (d.boxes.take i).zip (d.offsets.take i)
        ++ (d.boxAt i, d.offAt i) :: (d.boxAt (i + 1), d.offAt (i + 1))
          :: (d.boxes.drop (i + 2)).zip (d.offsets.drop (i + 2)) := by
    conv_lhs => rw [hb, ho]
    rw [List.zip_append htl]
    rfl
  rw [hzip, scanListStrict_append] at hscan
  cases hpre : scanListStrict d.dom ((d.boxes.take i).zip (d.offsets.take i)) with
  | none => rw [hpre] at hscan; simp at hscan
  | some s =>
    rw [hpre] at hscan
    simp only [Option.some_bind] at hscan
    rw [scanListStrict_cons] at hscan
    cases h0 : scanStepStrict s (d.boxAt i) (d.offAt i) with
    | none => rw [h0] at hscan; simp at hscan
    | some u =>
      rw [h0] at hscan
      simp only [Option.some_bind] at hscan
      rw [scanListStrict_cons] at hscan
      cases h1 : scanStepStrict u (d.boxAt (i + 1)) (d.offAt (i + 1)) with
      | none => rw [h1] at hscan; simp at hscan
      | some t =>
        rw [h1] at hscan
        simp only [Option.some_bind] at hscan
        have build : ∀ (o1' o0' : Nat) (v : Ty),
            scanStepStrict s (d.boxAt (i + 1)) o1' = some v →
            scanStepStrict v (d.boxAt i) o0' = some t →
            wellFormedStrict ⟨d.dom, d.cod,
              d.boxes.take i ++ [d.boxAt (i + 1), d.boxAt i]
                ++ d.boxes.drop (i + 2),
              d.offsets.take i ++ [o1', o0'] ++ d.offsets.drop (i + 2)⟩ := by
          intro o1' o0' v hv0 hv1
          constructor
          · dsimp only
            simp only [List.length_append, List.length_take, List.length_drop,
              List.length_cons, List.length_nil]
            omega
          · show scanListStrict d.dom
              ((d.boxes.take i ++ [d.boxAt (i + 1), d.boxAt i]
                  ++ d.boxes.drop (i + 2)).zip
                (d.offsets.take i ++ [o1', o0'] ++ d.offsets.drop (i + 2)))
              = some d.cod
            have hz2 : (d.boxes.take i ++ [d.boxAt (i + 1), d.boxAt i]
                  ++ d.boxes.drop (i + 2)).zip
                (d.offsets.take i ++ [o1', o0'] ++ d.offsets.drop (i + 2))
                = (d.boxes.take i).zip (d.offsets.take i)
                  ++ (d.boxAt (i + 1), o1') :: (d.boxAt i, o0')
                    :: (d.boxes.drop (i + 2)).zip (d.offsets.drop (i + 2)) := by
              rw [List.append_assoc, List.append_assoc, List.zip_append htl]
              rfl
            rw [hz2, scanListStrict_append, hpre]
            simp only [Option.some_bind]
            rw [scanListStrict_cons, hv0]
            simp only [Option.some_bind]
            rw [scanListStrict_cons, hv1]
            simp only [Option.some_bind]
            exact hscan
        unfold interCore at hok
        by_cases hc1 : left = true ∧
            d.offAt i + (d.boxAt i).cod.length ≤ d.offAt (i + 1)
        · rw [if_pos hc1] at hok
          injection hok with hr
          subst hr
          obtain ⟨v, hv0, hv1⟩ := swap_steps_left s u t (d.boxAt i)
            (d.boxAt (i + 1)) (d.offAt i) (d.offAt (i + 1)) h0 h1 hc1.2
          exact build _ _ v hv0 hv1
        · rw [if_neg hc1] at hok
          by_cases hc2 : d.offAt (i + 1) + (d.boxAt (i + 1)).dom.length
              ≤ d.offAt i
          · rw [if_pos hc2] at hok
            injection hok with hr
            subst hr
            obtain ⟨v, hv0, hv1⟩ := swap_steps_right s u t (d.boxAt i)
              (d.boxAt (i + 1)) (d.offAt i) (d.offAt (i + 1)) h0 h1 hc2
            exact build _ _ v hv0 hv1
          · rw [if_neg hc2] at hok
            by_cases hc3 : d.offAt i + (d.boxAt i).cod.length ≤ d.offAt (i + 1)
            · rw [if_pos hc3] at hok
              injection hok with hr
              subst hr
              obtain ⟨v, hv0, hv1⟩ := swap_steps_left s u t (d.boxAt i)
                (d.boxAt (i + 1)) (d.offAt i) (d.offAt (i + 1)) h0 h1 hc3
              exact build _ _ v hv0 hv1
            · rw [if_neg hc3] at hok
              exact absurd hok (by simp)

theorem interStep_wfS (d : Diagram) (i j : Int) (left : Bool) (r : Diagram)
    (hwf : wellFormedStrict d) (hok : interStep d i j left = .ok r) :
    wellFormedStrict r := by
  unfold interStep at hok
  by_cases hb : 0 ≤ i ∧ i < (d.boxes.length : Int) ∧ 0 ≤ j ∧
      j < (d.boxes.length : Int)
  · rw [if_pos hb] at hok
    by_cases hij : i = j
    · rw [if_pos hij] at hok
      injection hok with hr
      rw [← hr]
      exact hwf
    · rw [if_neg hij] at hok
      have hlt : (min i j).toNat + 1 < d.boxes.length := by
        rcases le_total i j with hle | hle
        · rw [min_eq_left hle]
          omega
        · rw [min_eq_right hle]
          omega
      exact interCore_wfS d _ left r hlt hwf hok
  · rw [if_neg hb] at hok
    exact absurd hok (by simp)

theorem walkDown_wfS : ∀ (n : Nat) (d : Diagram) (i : Int) (r : Diagram),
    wellFormedStrict d → walkDown d i n = .ok r → wellFormedStrict r := by
  intro n
  induction n with
  | zero =>
    intro d i r hwf hok
    injection hok with hr
    rw [← hr]
    exact hwf
  | succ n ih =>
    intro d i r hwf hok
    simp only [walkDown] at hok
    cases hs : interStep d i (i - 1) false with
    | error e => rw [hs] at hok; simp at hok
    | ok m =>
      rw [hs] at hok
      exact ih m (i - 1) r (interStep_wfS d i (i - 1) false m hwf hs) hok

theorem walkUp_wfS : ∀ (n : Nat) (d : Diagram) (i : Int) (r : Diagram),
    wellFormedStrict d → walkUp d i n = .ok r → wellFormedStrict r := by
  intro n
  induction n with
  | zero =>
    intro d i r hwf hok
    injection hok with hr
    rw [← hr]
    exact hwf
  | succ n ih =>
    intro d i r hwf hok
    simp only [walkUp] at hok
    cases hs : interStep d i (i + 1) false with
    | error e => rw [hs] at hok; simp at hok
    | ok m =>
      rw [hs] at hok
      exact ih m (i + 1) r (interStep_wfS d i (i + 1) false m hwf hs) hok

theorem interchange_wfS (d : Diagram) (i j : Int) (left : Bool) (r : Diagram)
    (hwf : wellFormedStrict d) (hok : d.interchange i j left = .ok r) :
    wellFormedStrict r := by
  unfold Diagram.interchange at hok
  by_cases hb : 0 ≤ i ∧ i < (d.boxes.length : Int) ∧ 0 ≤ j ∧
      j < (d.boxes.length : Int)
  · rw [if_pos hb] at hok
    by_cases hij : i = j
    · rw [if_pos hij] at hok
      injection hok with hr
      rw [← hr]
      exact hwf
    · rw [if_neg hij] at hok
      by_cases hlt : j < i - 1
      · rw [if_pos hlt] at hok
        exact walkDown_wfS _ d i r hwf hok
      · rw [if_neg hlt] at hok
        by_cases hgt : i + 1 < j
        · rw [if_pos hgt] at hok
          exact walkUp_wfS _ d i r hwf hok
        · rw [if_neg hgt] at hok
          have hmin : (min i j).toNat + 1 < d.boxes.length := by
            rcases le_total i j with hle | hle
            · rw [min_eq_left hle]
              omega
            · rw [min_eq_right hle]
              omega
          exact interCore_wfS d _ left r hmin hwf hok
  · rw [if_neg hb] at hok
    exact absurd hok (by simp)

theorem thenD_wfS (f g h : Diagram) (hf : wellFormedStrict f)
    (hg : wellFormedStrict g) (hok : f.thenD g = .ok h) :
    wellFormedStrict h := by
  unfold Diagram.thenD at hok
  by_cases hc : f.cod = g.dom
  · rw [if_pos hc] at hok
    injection hok with hr
    rw [← hr]
    obtain ⟨hl1, hs1⟩ := hf
    obtain ⟨hl2, hs2⟩ := hg
    constructor
    · dsimp only
      simp only [List.length_append, hl1, hl2]
    · show scanListStrict f.dom
        ((f.boxes ++ g.boxes).zip (f.offsets ++ g.offsets)) = some g.cod
      rw [List.zip_append hl1, scanListStrict_append, hs1]
      simp only [Option.some_bind]
      rw [hc]
      exact hs2
  · rw [if_neg hc] at hok
    exact absurd hok (by simp)

theorem tensor_wfS (f g : Diagram) (hf : wellFormedStrict f)
    (hg : wellFormedStrict g) : wellFormedStrict (f.tensor g) := by
  obtain ⟨hl1, hs1⟩ := hf
  obtain ⟨hl2, hs2⟩ := hg
  constructor
  · simp only [Diagram.tensor, List.length_append, List.length_map, hl1, hl2]
  · show scanListStrict (f.dom ++ g.dom)
      ((f.boxes ++ g.boxes).zip
        (f.offsets ++ g.offsets.map (fun n => n + f.cod.length)))
      = some (f.cod ++ g.cod)
    rw [List.zip_append hl1, scanListStrict_append,
      scanListStrict_extend_right g.dom _ _ _ hs1]
    simp only [Option.some_bind]
    have hzm : g.boxes.zip (g.offsets.map (fun n => n + f.cod.length))
        = (g.boxes.zip g.offsets).map (fun p => (p.1, p.2 + f.cod.length)) := by
      rw [List.zip_map_right]
      rfl
    rw [hzm]
    exact scanListStrict_extend_left f.cod _ _ _ hs2

theorem dagger_wfS (f : Diagram) (hf : wellFormedStrict f) :
    wellFormedStrict f.dagger := by
  obtain ⟨hl, hs⟩ := hf
  constructor
  · simp only [Diagram.dagger, List.length_map, List.length_reverse, hl]
  · show scanListStrict f.cod
      ((f.boxes.reverse.map Box.dagger).zip f.offsets.reverse) = some f.dom
    have hz : (f.boxes.reverse.map Box.dagger).zip f.offsets.reverse
        = ((f.boxes.zip f.offsets).map
            (fun p => (Box.dagger p.1, p.2))).reverse := by
      rw [List.zip_map_left, zipReverse f.offsets f.boxes hl, ← List.map_reverse]
      rfl
    rw [hz]
    exact scanListStrict_dagger _ _ _ hs

theorem wellFormed_of_strict (d : Diagram) (h : wellFormedStrict d) :
    wellFormed d :=
  ⟨h.1, scanList_of_strict _ _ _ h.2⟩

/-- C6 counterexample: a diagram accepted by the validating constructor
(whose empty-domain second box sits at an offset beyond the scan type,
which the clamped slicing lets pass) on which a successful interchange
returns a diagram violating the well-formedness invariant. -/
theorem C6_counterexample :
    wellFormed ⟨[], ["x", "y", "y"],
      [⟨"u", [], ["x"], false⟩, ⟨"v", [], ["y", "y"], false⟩], [1, 2]⟩ ∧
    mkDiagram [] ["x", "y", "y"]
      [⟨"u", [], ["x"], false⟩, ⟨"v", [], ["y", "y"], false⟩] [1, 2]
      = .ok ⟨[], ["x", "y", "y"],
        [⟨"u", [], ["x"], false⟩, ⟨"v", [], ["y", "y"], false⟩], [1, 2]⟩ ∧
    (Diagram.mk [] ["x", "y", "y"]
      [⟨"u", [], ["x"], false⟩, ⟨"v", [], ["y", "y"], false⟩]
      [1, 2]).interchange 0 1 false
      = .ok ⟨[], ["x", "y", "y"],
        [⟨"v", [], ["y", "y"], false⟩, ⟨"u", [], ["x"], false⟩], [1, 1]⟩ ∧
    ¬ wellFormed ⟨[], ["x", "y", "y"],
        [⟨"v", [], ["y", "y"], false⟩, ⟨"u", [], ["x"], false⟩], [1, 1]⟩ :=
  ⟨by decide, by decide, by decide, by decide⟩

/-- C6 amended: on diagrams satisfying the strict well-formedness
invariant (the scan simulation matches every box's domain with the offset
window inside the scan type and lands on `cod`), the fast-path results of
`then`, `tensor`, `dagger` and every successful `interchange` satisfy the
strict invariant again, and hence the well-formedness invariant; the
claim as stated fails only for well-formed diagrams with an offset
reaching beyond the scan type at an empty-domain box. -/
theorem C6_wf_preservation :
    (∀ d, wellFormedStrict d → wellFormed d) ∧
    (∀ f g h, wellFormedStrict f → wellFormedStrict g →
      f.thenD g = .ok h → wellFormedStrict h) ∧
    (∀ f g, wellFormedStrict f → wellFormedStrict g →
      wellFormedStrict (f.tensor g)) ∧
    (∀ f, wellFormedStrict f → wellFormedStrict f.dagger) ∧
    (∀ d (i j : Int) (left : Bool) r, wellFormedStrict d →
      d.interchange i j left = .ok r → wellFormedStrict r) :=
  ⟨wellFormed_of_strict,
   fun f g h hf hg hok => thenD_wfS f g h hf hg hok,
   fun f g hf hg => tensor_wfS f g hf hg,
   fun f hf => dagger_wfS f hf,
   fun d i j left r hd hok => interchange_wfS d i j left r hd hok⟩

theorem C6_wf_preservation_witness :
    wellFormedStrict ((Box.toDiagram ⟨"f0", ["x"], ["y"], false⟩).tensor
      (Box.toDiagram ⟨"f1", ["z"], ["w"], false⟩)) ∧
    wellFormed ((Box.toDiagram ⟨"f0", ["x"], ["y"], false⟩).tensor
      (Box.toDiagram ⟨"f1", ["z"], ["w"], false⟩)) :=
  ⟨C6_wf_preservation.2.2.1 _ _ (by decide) (by decide),
   C6_wf_preservation.1 _
     (C6_wf_preservation.2.2.1 _ _ (by decide) (by decide))⟩
